import Mathlib

/-!
# goblue: a shallow embedding of the vehicle-cloud client

The Go package `goblue` (files `client.go`, `vehicle.go`, `stamps.go`, `util.go`,
`errors.go`, `endpoints.go`, `config.go`) is embedded function by function.

* Go `int` is the 64-bit two's-complement integer: values are kept in `Int` and every
  arithmetic result is reduced by `wrapInt`.
* A Go function returning `(T, error)` becomes a function into `Result T`:
  `ok a` is `(a, nil)`, `fail e` is `(zero value, e)` and `panic` is a run-time panic.
* Everything outside the package (the HTTP transport, the random source, the clock, the
  UUID generator) is the explicit state `World`; pure library functions
  (`encoding/json`, `net/url`, `fmt`, `bufio`) are the fields of `Env`.
-/

set_option maxRecDepth 16384

namespace Goblue

/-! ## errors.go -/

/-- The five sentinel errors of `errors.go`, and `lib` for an error value produced by a
library call (transport failure, JSON decode failure, URL parse failure, ...). -/
inductive GoError where
  | ErrNotImplemented
  | ErrNotAuthenticated
  | ErrAuthenticationFailed
  | ErrUnknownBrand
  | ErrNoVehicleFound
  | lib (msg : String)
  deriving DecidableEq, Repr

/-- Outcome of a Go call of type `(T, error)`. -/
inductive Result (α : Type) where
  | ok (a : α)
  | fail (e : GoError)
  | panic
  deriving DecidableEq, Repr

/-! ## Machine integers -/

/-- Reduction of a mathematical integer to the Go `int` (64-bit two's complement). -/
def wrapInt (x : Int) : Int := (x + 2 ^ 63) % 2 ^ 64 - 2 ^ 63

/-- The values a Go `int` can hold. -/
def isInt (x : Int) : Prop := -(2 ^ 63) ≤ x ∧ x < 2 ^ 63

instance (x : Int) : Decidable (isInt x) := by unfold isInt; infer_instance

/-! ## Brand, Region, Config -/

/-- Modelled from the spec: the declaration of the type `Brand` and of its constants
`BrandHyundai` and `BrandKia` is not among the sources. The spec gives an enumeration
with the two supported brands; `other` stands for every further value of the
underlying Go type, which `NewClient` and `GetStampFromList` reject in their default
branch. -/
inductive Brand where
  | BrandHyundai
  | BrandKia
  | other (tag : String)
  deriving DecidableEq, Repr

/-- Type `Region` of `region.go`: a string. -/
abbrev Region := String

/-- Struct `Config` of `config.go`. -/
structure Config where
  Username : String
  Password : String
  Pin : String
  Brand : Brand
  Region : Region
  deriving DecidableEq, Repr

/-! ## vehicle.go: the status snapshot -/

/-- Struct `VehicleStatus`; `updatedAt` is the reading of the clock. -/
structure VehicleStatus where
  updatedAt : Nat
  doorIsLocked : Bool
  isCharging : Bool
  batterySoc : Int
  rangeLeft : Int
  targetSocAC : Int
  targetSocDC : Int
  plugState : Int
  deriving DecidableEq, Repr

/-- Method `(*VehicleStatus).MaxRange`: `rangeLeft / batterySoc * 100` in Go `int`
arithmetic (`/` truncates toward zero), guarded against a zero divisor. -/
def VehicleStatus.MaxRange (v : VehicleStatus) : Int :=
  if v.batterySoc = 0 then 0
  else wrapInt (wrapInt (Int.tdiv v.rangeLeft v.batterySoc) * 100)

/-! ## client.go, endpoints.go, vehicle.go: the data model -/

def defaultUserAgent : String := "okhttp/3.10.0"

def apiCodeOk : String := "S"

def apiCodeFail : String := "F"

/-- Struct `auth` of `client.go`. -/
structure auth where
  URI : String
  TokenAuth : String
  CCSPServiceID : String
  CCSPApplicationID : String
  CCSPDeviceID : String
  AccessToken : String
  UserAgent : String
  deriving DecidableEq, Repr

/-- Struct `endpoints` of `endpoints.go`. -/
structure endpoints where
  DeviceID : String
  Lang : String
  Login : String
  AccessToken : String
  Vehicles : String
  Status : String
  deriving DecidableEq, Repr

def defaultEndpoints : endpoints :=
  { DeviceID := "/api/v1/spa/notifications/register"
    Lang := "/api/v1/user/language"
    Login := "/api/v1/user/signin"
    AccessToken := "/api/v1/user/oauth2/token"
    Vehicles := "/api/v1/spa/vehicles"
    Status := "/api/v1/spa/vehicles/%s/status" }

/-- The part of `http.Client` that the package touches: the timeout (in minutes) and
whether a cookie jar is installed. The transport it sends through is the `World`. -/
structure HttpClient where
  Timeout : Nat
  Jar : Bool
  deriving DecidableEq, Repr

/-- Struct `Vehicle`; `http` is an interface value and may be nil (`none`). -/
structure Vehicle where
  id : String
  vin : String
  name : String
  vtype : String
  brand : Brand
  http : Option HttpClient
  auth : auth
  endpoints : endpoints
  deriving DecidableEq, Repr

/-- Struct `Client`; `http` is a pointer and is nil (`none`) in the zero value. -/
structure Client where
  http : Option HttpClient
  auth : auth
  endpoints : endpoints
  cfg : Config
  deriving DecidableEq, Repr

/-- An `http.Request` as the package builds it: method, URI, optional body and the
headers in the order of the source literal. -/
structure Request where
  method : String
  uri : String
  body : Option String
  headers : List (String × String)
  deriving DecidableEq, Repr

/-- A response body: the bytes a read delivers and the error the read ends with. -/
structure Body where
  data : String
  readErr : Option GoError
  deriving DecidableEq, Repr

/-- An `http.Response`: status code and body. -/
structure Response where
  StatusCode : Int
  Body : Body
  deriving DecidableEq, Repr

/-- Observable actions, recorded in the order they happen. -/
inductive Event where
  | stamp (b : Brand)
  | built (r : Request)
  | sent (r : Request)
  deriving DecidableEq, Repr

/-- Everything outside the package. `transport n` is the answer of the HTTP client to the
`n`-th call made on it, `rand n` the `n`-th value of the random source, `uuid n` the
answer of the `n`-th `uuid.NewUUID()`, `now` the reading of `time.Now()`; the counters
say how many answers have been used, `trace` what has been done. -/
structure World where
  transport : Nat → Except GoError Response
  calls : Nat
  rand : Nat → Nat
  randCalls : Nat
  uuid : Nat → Except GoError String
  uuidCalls : Nat
  now : Nat
  trace : List Event

/-! ### The decoded JSON documents

Only the fields that the code reads are kept; `encoding/json` fills a field that is
absent from the document with the zero value of its type. -/

/-- Decode target of `requestDeviceID`. -/
structure DeviceResp where
  Retcode : String
  Deviceid : String
  deriving DecidableEq, Repr

/-- One element of `resMsg.vehicles` in the decode target of `Vehicles`; the Go field
`Type` is written `Typ`. -/
structure VehicleRecord where
  ID : String
  Vin : String
  Name : String
  Typ : String
  Nickname : String
  Master : Bool
  Carshare : Int
  Regdate : String
  deriving DecidableEq, Repr

/-- Decode target of `Vehicles`. -/
structure VehiclesResp where
  Retcode : String
  Rescode : String
  Vehicles : List VehicleRecord
  Msgid : String
  deriving DecidableEq, Repr

/-- Type `PlugType` of `vehicle.go`, an `int` with the constants AC = 0 and DC = 1. -/
abbrev PlugType := Int

def PlugTypeAC : PlugType := 0

def PlugTypeDC : PlugType := 1

/-- One element of `targetSOClist`. -/
structure TargetSoc where
  Targetsoclevel : Int
  Plugtype : PlugType
  deriving DecidableEq, Repr

/-- One element of `drvDistance`: `rangeByFuel.evModeRange.value` and the other numbers
of the element. -/
structure DrvDistance where
  EvmoderangeValue : Int
  EvmoderangeUnit : Int
  TotalavailablerangeValue : Int
  TotalavailablerangeUnit : Int
  Typ : Int
  deriving DecidableEq, Repr

/-- Struct `vehicleStatusResponse`, restricted to the paths `Status` reads:
`retCode`, `resMsg.doorLock`, and under `resMsg.evStatus` the fields `batteryCharge`,
`batteryStatus`, `batteryPlugin`, `drvDistance` and `reservChargeInfos.targetSOClist`. -/
structure vehicleStatusResponse where
  Retcode : String
  Rescode : String
  Doorlock : Bool
  Batterycharge : Bool
  Batterystatus : Int
  Batteryplugin : Int
  Drvdistance : List DrvDistance
  Targetsoclist : List TargetSoc
  deriving DecidableEq, Repr

/-- Decode target of `login`. -/
structure RedirectResp where
  RedirectURL : String
  deriving DecidableEq, Repr

/-- Decode target of `requestAccessToken`. -/
structure TokenResp where
  TokenType : String
  AccessToken : String
  deriving DecidableEq, Repr

/-- A parsed `url.URL`, reduced to its raw query. -/
structure URL where
  RawQuery : String
  deriving DecidableEq, Repr

/-- The library functions the package calls, and the two embedded stamp files.
An `Except` value is the Go pair `(value, error)`. -/
structure Env where
  hyundai : String
  kia : String
  scanLines : String → List String × Option GoError
  jsonMarshal : List (String × String) → Except GoError String
  httpNewRequest : String → String → Option GoError
  sprintf : String → List String → String
  cookiejarNew : Option GoError
  unmarshalDevice : String → Except GoError DeviceResp
  unmarshalVehicles : String → Except GoError VehiclesResp
  unmarshalStatus : String → Except GoError vehicleStatusResponse
  unmarshalRedirect : String → Except GoError RedirectResp
  unmarshalTokens : String → Except GoError TokenResp
  urlParse : String → Except GoError URL
  queryGet : String → String → String
  formEncode : List (String × String) → String

/-! ## Sequencing -/

/-- Run `f` on the value of a successful step; an error or a panic ends the function
with that error or panic (the Go idiom `if err != nil { return zero, err }`). -/
def andThen {α β : Type} (x : Result α × World) (f : α → World → Result β × World) :
    Result β × World :=
  match x with
  | (Result.ok a, w) => f a w
  | (Result.fail e, w) => (Result.fail e, w)
  | (Result.panic, w) => (Result.panic, w)

/-- A library `(value, error)` pair as a step that leaves the world alone. -/
def liftExcept {α : Type} (x : Except GoError α) (w : World) : Result α × World :=
  match x with
  | Except.ok a => (Result.ok a, w)
  | Except.error e => (Result.fail e, w)

/-! ## stamps.go -/

/-- Function `unpack`: the lines of the embedded file and the scanner's error. -/
def unpack (env : Env) (source : String) : List String × Option GoError :=
  env.scanLines source

/-- Call `rand.Intn(n)`: panics for `n = 0`, otherwise the next random value reduced
to `[0, n)`. -/
def randIntn (n : Nat) (w : World) : Result Nat × World :=
  if n = 0 then (Result.panic, w)
  else (Result.ok (w.rand w.randCalls % n), { w with randCalls := w.randCalls + 1 })

/-- Expression `p[rand.Intn(len(p))]`. -/
def pickStamp (p : List String) (w : World) : Result String × World :=
  andThen (randIntn p.length w) fun i w1 =>
    match p[i]? with
    | some s => (Result.ok s, w1)
    | none => (Result.panic, w1)

/-- Function `GetStampFromList`. -/
def GetStampFromList (env : Env) (b : Brand) (w : World) : Result String × World :=
  let w0 := { w with trace := w.trace ++ [Event.stamp b] }
  match b with
  | Brand.BrandHyundai =>
    match unpack env env.hyundai with
    | (_, some err) => (Result.fail err, w0)
    | (p, none) => pickStamp p w0
  | Brand.BrandKia =>
    match unpack env env.kia with
    | (_, some err) => (Result.fail err, w0)
    | (p, none) => pickStamp p w0
  | Brand.other _ => (Result.fail GoError.ErrUnknownBrand, w0)

/-! ## util.go -/

/-- Function `newHttpRequest`: `http.NewRequest`, then the headers are added. -/
def newHttpRequest (env : Env) (method uri : String) (data : Option String)
    (headers : List (String × String)) (w : World) : Result Request × World :=
  match env.httpNewRequest method uri with
  | some err => (Result.fail err, w)
  | none =>
    let req : Request := { method := method, uri := uri, body := data, headers := headers }
    (Result.ok req, { w with trace := w.trace ++ [Event.built req] })

/-- Method `Do` of the HTTP client: a nil client panics, otherwise the call is recorded
and answered by the transport. -/
def httpDo (h : Option HttpClient) (req : Request) (w : World) : Result Response × World :=
  match h with
  | none => (Result.panic, w)
  | some _ =>
    liftExcept (w.transport w.calls)
      { w with calls := w.calls + 1, trace := w.trace ++ [Event.sent req] }

/-- Method `Get` of `http.Client`: `http.NewRequest("GET", url, nil)` followed by `Do`. -/
def httpGet (env : Env) (h : Option HttpClient) (uri : String) (w : World) :
    Result Response × World :=
  match h with
  | none => (Result.panic, w)
  | some c =>
    match env.httpNewRequest "GET" uri with
    | some err => (Result.fail err, w)
    | none => httpDo (some c) { method := "GET", uri := uri, body := none, headers := [] } w

/-- Variable `JSONEncoding` of `client.go`. -/
def JSONEncoding : List (String × String) :=
  [("Content-Type", "application/json"), ("Accept", "application/json")]

/-! ## vehicle.go: NewVehicle and Status -/

/-- Function `NewVehicle` with the three options `Vehicles` passes
(`WithVehicleClient`, `WithVehicleAuth`, `WithVehicleEndpoints`), applied in order. -/
def NewVehicle (id vin name vtype : String) (b : Brand) (h : Option HttpClient) (a : auth)
    (e : endpoints) : Vehicle :=
  let v : Vehicle :=
    { id := id, vin := vin, name := name, vtype := vtype, brand := b, http := none,
      auth := { URI := "", TokenAuth := "", CCSPServiceID := "", CCSPApplicationID := "",
                CCSPDeviceID := "", AccessToken := "", UserAgent := "" },
      endpoints := { DeviceID := "", Lang := "", Login := "", AccessToken := "",
                     Vehicles := "", Status := "" } }
  let v := { v with http := h }
  let v := { v with auth := a }
  { v with endpoints := e }

/-- The loop of `Status` over `targetSOClist`: the pair `(acTarget, dcTarget)`, both
starting at 0, each overwritten by every entry of its plug type. -/
def scanTargets (l : List TargetSoc) : Int × Int :=
  l.foldl (fun acc t =>
    if t.Plugtype = PlugTypeAC then (t.Targetsoclevel, acc.2)
    else if t.Plugtype = PlugTypeDC then (acc.1, t.Targetsoclevel)
    else acc) (0, 0)

/-- The tail of `Status` after the `retCode` check: the snapshot built from the decoded
message and the clock. -/
def buildStatus (msg : vehicleStatusResponse) (now : Nat) : VehicleStatus :=
  let rangebyfuel : Int :=
    match msg.Drvdistance with
    | d :: _ => d.EvmoderangeValue
    | [] => 0
  let targets := scanTargets msg.Targetsoclist
  { updatedAt := now
    doorIsLocked := msg.Doorlock
    isCharging := msg.Batterycharge
    batterySoc := msg.Batterystatus
    plugState := msg.Batteryplugin
    rangeLeft := rangebyfuel
    targetSocAC := targets.1
    targetSocDC := targets.2 }

/-- Method `(*Vehicle).Status`. -/
def Vehicle.Status (env : Env) (v : Vehicle) (w : World) : Result VehicleStatus × World :=
  if v.auth.AccessToken = "" then (Result.fail GoError.ErrNotAuthenticated, w)
  else
    andThen (GetStampFromList env v.brand w) fun stamp w1 =>
      let headers : List (String × String) :=
        [("Authorization", v.auth.AccessToken),
         ("ccsp-device-id", v.auth.CCSPDeviceID),
         ("ccsp-application-id", v.auth.CCSPApplicationID),
         ("offset", "1"),
         ("User-Agent", v.auth.UserAgent),
         ("Stamp", stamp)]
      let uri := env.sprintf (v.auth.URI ++ v.endpoints.Status) [v.id]
      andThen (newHttpRequest env "GET" uri none headers w1) fun req w2 =>
        andThen (httpDo v.http req w2) fun resp w3 =>
          if resp.StatusCode = 401 ∨ resp.StatusCode = 403 then
            (Result.fail GoError.ErrNotAuthenticated, w3)
          else
            andThen (liftExcept (env.unmarshalStatus resp.Body.data) w3) fun msg w4 =>
              if msg.Retcode ≠ apiCodeOk then (Result.fail GoError.ErrNotAuthenticated, w4)
              else (Result.ok (buildStatus msg w4.now), w4)

/-! ## client.go: Vehicles -/

/-- Method `(*Client).Vehicles`. The HTTP status of the response is not looked at. -/
def Client.Vehicles (env : Env) (c : Client) (w : World) : Result (List Vehicle) × World :=
  if c.auth.AccessToken = "" then (Result.fail GoError.ErrNotAuthenticated, w)
  else
    andThen (GetStampFromList env c.cfg.Brand w) fun stamp w1 =>
      let headers : List (String × String) :=
        [("Authorization", c.auth.AccessToken),
         ("ccsp-device-id", c.auth.CCSPDeviceID),
         ("ccsp-application-id", c.auth.CCSPApplicationID),
         ("offset", "1"),
         ("User-Agent", c.auth.UserAgent),
         ("Stamp", stamp)]
      let uri := c.auth.URI ++ c.endpoints.Vehicles
      andThen (newHttpRequest env "GET" uri none headers w1) fun req w2 =>
        andThen (httpDo c.http req w2) fun resp w3 =>
          andThen (liftExcept (env.unmarshalVehicles resp.Body.data) w3) fun msg w4 =>
            if msg.Retcode ≠ apiCodeOk then (Result.fail GoError.ErrNotAuthenticated, w4)
            else
              let count := msg.Vehicles.length
              if count = 0 then (Result.fail GoError.ErrNoVehicleFound, w4)
              else
                (Result.ok (msg.Vehicles.map fun r =>
                  NewVehicle r.ID r.Vin r.Name r.Typ c.cfg.Brand c.http c.auth c.endpoints), w4)

/-! ## client.go: the handshake -/

/-- Call `uuid.NewUUID()`. -/
def newUUID (w : World) : Result String × World :=
  liftExcept (w.uuid w.uuidCalls) { w with uuidCalls := w.uuidCalls + 1 }

/-- Method `(*Client).requestDeviceID`. -/
def Client.requestDeviceID (env : Env) (c : Client) (w : World) : Result String × World :=
  andThen (newUUID w) fun uniID w1 =>
    let data : List (String × String) :=
      [("pushRegId", "1"), ("pushType", "GCM"), ("uuid", uniID)]
    andThen (GetStampFromList env c.cfg.Brand w1) fun stamp w2 =>
      let headers : List (String × String) :=
        [("ccsp-service-id", c.auth.CCSPServiceID),
         ("Content-type", "application/json;charset=UTF-8"),
         ("User-Agent", c.auth.UserAgent),
         ("Stamp", stamp)]
      andThen (liftExcept (env.jsonMarshal data) w2) fun body w3 =>
        let uri := c.auth.URI ++ c.endpoints.DeviceID
        andThen (newHttpRequest env "POST" uri (some body) headers w3) fun req w4 =>
          andThen (httpDo c.http req w4) fun r w5 =>
            if r.StatusCode ≠ 200 then (Result.fail GoError.ErrNotAuthenticated, w5)
            else
              match r.Body.readErr with
              | some err => (Result.fail err, w5)
              | none =>
                andThen (liftExcept (env.unmarshalDevice r.Body.data) w5) fun resp w6 =>
                  if resp.Retcode = apiCodeFail then
                    (Result.fail GoError.ErrNotAuthenticated, w6)
                  else (Result.ok resp.Deviceid, w6)

/-- Method `(*Client).resetCookies`: `c.http.Jar = nil`; `none` is the panic on a nil
`c.http`. -/
def Client.resetCookies (c : Client) : Option Client :=
  match c.http with
  | none => none
  | some h => some { c with http := some { h with Jar := false } }

/-- The URI `setCookiesAndVerify` formats: `fmt.Sprintf` with the three `%s` verbs
filled by the base URI, the service ID and the base URI. -/
def authorizeURI (c : Client) : String :=
  c.auth.URI
    ++ "/api/v1/user/oauth2/authorize?response_type=code&state=test&client_id="
    ++ c.auth.CCSPServiceID ++ "&redirect_uri=" ++ c.auth.URI
    ++ "/api/v1/user/oauth2/redirect"

/-- Method `(*Client).setCookiesAndVerify`: the client after the call and the outcome. -/
def Client.setCookiesAndVerify (env : Env) (c : Client) (w : World) :
    Client × (Result Unit × World) :=
  match env.cookiejarNew with
  | some err => (c, (Result.fail err, w))
  | none =>
    match c.http with
    | none => (c, (Result.panic, w))
    | some h =>
      let c1 := { c with http := some { h with Jar := true } }
      let uri := authorizeURI c
      (c1, andThen (httpGet env c1.http uri w) fun _ w1 => (Result.ok (), w1))

/-- Method `(*Client).setLanguage`. -/
def Client.setLanguage (env : Env) (c : Client) (lang : String) (w : World) :
    Result Unit × World :=
  let data : List (String × String) := [("lang", lang)]
  andThen (liftExcept (env.jsonMarshal data) w) fun body w1 =>
    let uri := c.auth.URI ++ c.endpoints.Lang
    andThen (newHttpRequest env "POST" uri (some body) JSONEncoding w1) fun req w2 =>
      andThen (httpDo c.http req w2) fun _ w3 => (Result.ok (), w3)

/-- Method `(*Client).login`. Only status 400 is rejected. When `url.Parse` fails it
returns a nil URL, and the call `parsed.Query()` on it panics before the error is
returned. -/
def Client.login (env : Env) (c : Client) (w : World) : Result String × World :=
  let data : List (String × String) :=
    [("email", c.cfg.Username), ("password", c.cfg.Password)]
  andThen (liftExcept (env.jsonMarshal data) w) fun body w1 =>
    let uri := c.auth.URI ++ c.endpoints.Login
    andThen (newHttpRequest env "POST" uri (some body) JSONEncoding w1) fun req w2 =>
      andThen (httpDo c.http req w2) fun resp w3 =>
        if resp.StatusCode = 400 then (Result.fail GoError.ErrAuthenticationFailed, w3)
        else
          andThen (liftExcept (env.unmarshalRedirect resp.Body.data) w3) fun redirect w4 =>
            match env.urlParse redirect.RedirectURL with
            | Except.error _ => (Result.panic, w4)
            | Except.ok parsed => (Result.ok (env.queryGet parsed.RawQuery "code"), w4)

/-- Method `(*Client).requestAccessToken`. -/
def Client.requestAccessToken (env : Env) (c : Client) (accCode : String) (w : World) :
    Result String × World :=
  let headers : List (String × String) :=
    [("Authorization", "Basic " ++ c.auth.TokenAuth),
     ("Content-type", "application/x-www-form-urlencoded"),
     ("User-Agent", c.auth.UserAgent)]
  let data : List (String × String) :=
    [("grant_type", "authorization_code"),
     ("redirect_uri", c.auth.URI ++ "/api/v1/user/oauth2/redirect"),
     ("code", accCode)]
  let uri := c.auth.URI ++ c.endpoints.AccessToken
  andThen (newHttpRequest env "POST" uri (some (env.formEncode data)) headers w) fun req w1 =>
    andThen (httpDo c.http req w1) fun resp w2 =>
      andThen (liftExcept (env.unmarshalTokens resp.Body.data) w2) fun tokens w3 =>
        (Result.ok (tokens.TokenType ++ " " ++ tokens.AccessToken), w3)

/-- Method `(*Client).Authenticate`: the client after the call and the outcome
(`ok ()` is the nil error). -/
def Client.Authenticate (env : Env) (c : Client) (w : World) :
    Client × (Result Unit × World) :=
  match c.resetCookies with
  | none => (c, (Result.panic, w))
  | some c0 =>
    match c0.requestDeviceID env w with
    | (Result.fail err, w1) => (c0, (Result.fail err, w1))
    | (Result.panic, w1) => (c0, (Result.panic, w1))
    | (Result.ok deviceID, w1) =>
      let c1 := { c0 with auth := { c0.auth with CCSPDeviceID := deviceID } }
      match c1.setCookiesAndVerify env w1 with
      | (c2, (Result.fail err, w2)) => (c2, (Result.fail err, w2))
      | (c2, (Result.panic, w2)) => (c2, (Result.panic, w2))
      | (c2, (Result.ok _, w2)) =>
        match c2.setLanguage env "en" w2 with
        | (Result.fail err, w3) => (c2, (Result.fail err, w3))
        | (Result.panic, w3) => (c2, (Result.panic, w3))
        | (Result.ok _, w3) =>
          match c2.login env w3 with
          | (Result.fail err, w4) => (c2, (Result.fail err, w4))
          | (Result.panic, w4) => (c2, (Result.panic, w4))
          | (Result.ok accCode, w4) =>
            match c2.requestAccessToken env accCode w4 with
            | (Result.fail err, w5) => (c2, (Result.fail err, w5))
            | (Result.panic, w5) => (c2, (Result.panic, w5))
            | (Result.ok token, w5) =>
              ({ c2 with auth := { c2.auth with AccessToken := token } },
                (Result.ok (), w5))

/-! ## client.go: NewClient -/

/-- Function `NewClient`; an option is a function that changes the client or fails. -/
def NewClient (cfg : Config) (opts : List (Client → Except GoError Client)) : Result Client :=
  let au : auth :=
    { URI := "", TokenAuth := "", CCSPServiceID := "", CCSPApplicationID := "",
      CCSPDeviceID := "", AccessToken := "", UserAgent := defaultUserAgent }
  let cl : Client :=
    { http := some { Timeout := 45, Jar := false }
      endpoints := defaultEndpoints
      cfg := cfg
      auth := au }
  let branded : Option Client :=
    match cfg.Brand with
    | Brand.BrandHyundai =>
      some { cl with auth := { au with
        URI := "https://prd.eu-ccapi.hyundai.com:8080"
        CCSPServiceID := "6d477c38-3ca4-4cf3-9557-2a1929a94654"
        CCSPApplicationID := "99cfff84-f4e2-4be8-a5ed-e5b755eb6581"
        TokenAuth := "NmQ0NzdjMzgtM2NhNC00Y2YzLTk1NTctMmExOTI5YTk0NjU0OktVeTQ5WHhQekxwTHVvSzB4aEJDNzdXNlZYaG10UVI5aVFobUlGampvWTRJcHhzVg==" } }
    | Brand.BrandKia =>
      some { cl with auth := { au with
        URI := "https://prd.eu-ccapi.kia.com:8080"
        CCSPServiceID := "fdc85c00-0a2f-4c64-bcb4-2cfb1500730a"
        CCSPApplicationID := "693a33fa-c117-43f2-ae3b-61a02d24f417"
        TokenAuth := "ZmRjODVjMDAtMGEyZi00YzY0LWJjYjQtMmNmYjE1MDA3MzBhOnNlY3JldA==" } }
    | Brand.other _ => none
  match branded with
  | none => Result.fail GoError.ErrUnknownBrand
  | some cl0 =>
    opts.foldl (fun acc o =>
      match acc with
      | Result.ok c =>
        match o c with
        | Except.ok c1 => Result.ok c1
        | Except.error err => Result.fail err
      | other => other) (Result.ok cl0)

/-! ## Specification-side definitions -/

/-- The `targetSOClevel` of the last entry of the list whose plug type is `p`, and 0
when the list has no entry of plug type `p`. -/
def lastTarget (p : PlugType) (l : List TargetSoc) : Int :=
  match l.reverse.find? (fun t => decide (t.Plugtype = p)) with
  | some t => t.Targetsoclevel
  | none => 0

/-- The vehicle the spec describes for one record of the directory listing: identifier,
VIN, name and type of the record, the brand of the client, bound to the session. -/
def vehicleOfRecord (c : Client) (r : VehicleRecord) : Vehicle :=
  { id := r.ID, vin := r.Vin, name := r.Name, vtype := r.Typ, brand := c.cfg.Brand,
    http := c.http, auth := c.auth, endpoints := c.endpoints }

/-- The request `requestAccessToken` sends for the authorization code `accCode`. -/
def tokenRequest (env : Env) (c : Client) (accCode : String) : Request :=
  { method := "POST"
    uri := c.auth.URI ++ c.endpoints.AccessToken
    body := some (env.formEncode
      [("grant_type", "authorization_code"),
       ("redirect_uri", c.auth.URI ++ "/api/v1/user/oauth2/redirect"),
       ("code", accCode)])
    headers :=
      [("Authorization", "Basic " ++ c.auth.TokenAuth),
       ("Content-type", "application/x-www-form-urlencoded"),
       ("User-Agent", c.auth.UserAgent)] }

/-- The handshake is carried through: the client has an HTTP client, no library call of
`Authenticate` fails (UUID, stamp draw, JSON encoding, cookie jar, the five requests are
well-formed) and the HTTP client answers the five calls of the handshake, in order, with
the responses `r1` (device registration), `r2` (cookie priming), `r3` (language),
`r4` (login) and `r5` (token exchange). Nothing is assumed about the responses. -/
structure Handshake (env : Env) (c : Client) (w : World) (r1 r2 r3 r4 r5 : Response) :
    Prop where
  http : ∃ h, c.http = some h
  stamp : ∃ s, (GetStampFromList env c.cfg.Brand w).1 = Result.ok s
  uuid : ∃ u b, w.uuid w.uuidCalls = Except.ok u ∧
    env.jsonMarshal [("pushRegId", "1"), ("pushType", "GCM"), ("uuid", u)] = Except.ok b
  jar : env.cookiejarNew = none
  marshalLang : ∃ b, env.jsonMarshal [("lang", "en")] = Except.ok b
  marshalLogin : ∃ b,
    env.jsonMarshal [("email", c.cfg.Username), ("password", c.cfg.Password)] = Except.ok b
  requestDevice : env.httpNewRequest "POST" (c.auth.URI ++ c.endpoints.DeviceID) = none
  requestCookie : env.httpNewRequest "GET" (authorizeURI c) = none
  requestLang : env.httpNewRequest "POST" (c.auth.URI ++ c.endpoints.Lang) = none
  requestLogin : env.httpNewRequest "POST" (c.auth.URI ++ c.endpoints.Login) = none
  requestToken : env.httpNewRequest "POST" (c.auth.URI ++ c.endpoints.AccessToken) = none
  answer1 : w.transport w.calls = Except.ok r1
  answer2 : w.transport (w.calls + 1) = Except.ok r2
  answer3 : w.transport (w.calls + 2) = Except.ok r3
  answer4 : w.transport (w.calls + 3) = Except.ok r4
  answer5 : w.transport (w.calls + 4) = Except.ok r5

/-- The Hyundai values of the session credentials, device ID and bearer token empty. -/
def hyundaiAuth : auth :=
  { URI := "https://prd.eu-ccapi.hyundai.com:8080"
    TokenAuth := "NmQ0NzdjMzgtM2NhNC00Y2YzLTk1NTctMmExOTI5YTk0NjU0OktVeTQ5WHhQekxwTHVvSzB4aEJDNzdXNlZYaG10UVI5aVFobUlGampvWTRJcHhzVg=="
    CCSPServiceID := "6d477c38-3ca4-4cf3-9557-2a1929a94654"
    CCSPApplicationID := "99cfff84-f4e2-4be8-a5ed-e5b755eb6581"
    CCSPDeviceID := ""
    AccessToken := ""
    UserAgent := defaultUserAgent }

/-- The Kia values of the session credentials, device ID and bearer token empty. -/
def kiaAuth : auth :=
  { URI := "https://prd.eu-ccapi.kia.com:8080"
    TokenAuth := "ZmRjODVjMDAtMGEyZi00YzY0LWJjYjQtMmNmYjE1MDA3MzBhOnNlY3JldA=="
    CCSPServiceID := "fdc85c00-0a2f-4c64-bcb4-2cfb1500730a"
    CCSPApplicationID := "693a33fa-c117-43f2-ae3b-61a02d24f417"
    CCSPDeviceID := ""
    AccessToken := ""
    UserAgent := defaultUserAgent }

/-- The client of a new session: the default HTTP client (timeout 45 minutes, no cookie
jar), the default endpoint table, the given configuration and credentials. -/
def freshClient (cfg : Config) (a : auth) : Client :=
  { http := some { Timeout := 45, Jar := false }
    endpoints := defaultEndpoints
    cfg := cfg
    auth := a }

/-! ## A concrete environment

One behaviour of the libraries and of the vendor, used to run the code on explicit
inputs. The decoders are given by their values on the documents that occur. -/

def docDeviceS : String := "\x7b\"retCode\":\"S\",\"resMsg\":\x7b\"deviceId\":\"D1\"\x7d\x7d"

def docDeviceF : String := "\x7b\"retCode\":\"F\",\"resMsg\":\x7b\"deviceId\":\"\"\x7d\x7d"

def docDeviceNoCode : String := "\x7b\"resMsg\":\x7b\"deviceId\":\"D1\"\x7d\x7d"

def docRedirect : String :=
  "\x7b\"redirectUrl\":\"https://prd.eu-ccapi.hyundai.com:8080/api/v1/user/oauth2/redirect?code=C1&state=test\"\x7d"

def docEmpty : String := "\x7b\x7d"

def docTokens : String := "\x7b\"token_type\":\"Bearer\",\"access_token\":\"T1\"\x7d"

def docVehicles : String :=
  "\x7b\"retCode\":\"S\",\"resMsg\":\x7b\"vehicles\":[\x7b\"vehicleId\":\"V1\",\"vin\":\"KMH1\",\"vehicleName\":\"IONIQ\",\"type\":\"EV\"\x7d,\x7b\"vehicleId\":\"V2\",\"vin\":\"KMH2\",\"vehicleName\":\"KONA\",\"type\":\"EV\"\x7d]\x7d\x7d"

def docNoVehicles : String := "\x7b\"retCode\":\"S\",\"resMsg\":\x7b\"vehicles\":[]\x7d\x7d"

def docFail : String := "\x7b\"retCode\":\"F\"\x7d"

def docStatus : String :=
  "\x7b\"retCode\":\"S\",\"resMsg\":\x7b\"doorLock\":true,\"evStatus\":\x7b\"batteryCharge\":false,\"batteryStatus\":50,\"batteryPlugin\":0,\"drvDistance\":[\x7b\"rangeByFuel\":\x7b\"evModeRange\":\x7b\"value\":150\x7d\x7d\x7d],\"reservChargeInfos\":\x7b\"targetSOClist\":[\x7b\"targetSOClevel\":70,\"plugType\":0\x7d,\x7b\"targetSOClevel\":80,\"plugType\":1\x7d,\x7b\"targetSOClevel\":90,\"plugType\":0\x7d]\x7d\x7d\x7d\x7d"

/-- The decoded `docStatus`: state of charge 50, range 150, targets AC 70, DC 80, AC 90. -/
def demoStatusMsg : vehicleStatusResponse :=
  { Retcode := "S", Rescode := "", Doorlock := true, Batterycharge := false
    Batterystatus := 50, Batteryplugin := 0
    Drvdistance :=
      [{ EvmoderangeValue := 150, EvmoderangeUnit := 0,
         TotalavailablerangeValue := 0, TotalavailablerangeUnit := 0, Typ := 0 }]
    Targetsoclist :=
      [{ Targetsoclevel := 70, Plugtype := PlugTypeAC },
       { Targetsoclevel := 80, Plugtype := PlugTypeDC },
       { Targetsoclevel := 90, Plugtype := PlugTypeAC }] }

/-- The decoded `docVehicles`: two records. -/
def demoRecords : List VehicleRecord :=
  [{ ID := "V1", Vin := "KMH1", Name := "IONIQ", Typ := "EV", Nickname := "",
     Master := false, Carshare := 0, Regdate := "" },
   { ID := "V2", Vin := "KMH2", Name := "KONA", Typ := "EV", Nickname := "",
     Master := false, Carshare := 0, Regdate := "" }]

def redirectURL : String :=
  "https://prd.eu-ccapi.hyundai.com:8080/api/v1/user/oauth2/redirect?code=C1&state=test"

/-- Function `dropCR` of `bufio`: a trailing carriage return is removed. -/
def dropCR (line : List Char) : List Char :=
  if line.getLast? = some (Char.ofNat 13) then line.dropLast else line

/-- Split function `bufio.ScanLines` run to the end of the input: the lines without
their terminators; `cur` is the current line, reversed. An empty last line is not a
line. -/
def scanLinesFrom : List Char → List Char → List String
  | [], cur => if cur = [] then [] else [String.mk (dropCR cur.reverse)]
  | c :: cs, cur =>
    if c = Char.ofNat 10 then String.mk (dropCR cur.reverse) :: scanLinesFrom cs []
    else scanLinesFrom cs (c :: cur)

/-- The UTF-8 bytes of a character. -/
def utf8Bytes (c : Char) : List Nat :=
  if c.toNat < 128 then [c.toNat] else (String.utf8EncodeChar c).map UInt8.toNat

/-- One byte as `%XX` with upper-case hexadecimal digits. -/
def percentByte (b : Nat) : List Char :=
  ['%', "0123456789ABCDEF".toList.getD (b / 16) '0',
        "0123456789ABCDEF".toList.getD (b % 16) '0']

/-- Function `url.QueryEscape` on one character: letters, digits and `-`, `_`, `.`, `~`
stay, the space becomes `+`, every other byte is percent-escaped. -/
def queryEscapeChar (c : Char) : List Char :=
  if c.isAlphanum ∨ c.toNat = 45 ∨ c.toNat = 95 ∨ c.toNat = 46 ∨ c.toNat = 126 then [c]
  else if c.toNat = 32 then ['+']
  else (utf8Bytes c).flatMap percentByte

/-- Function `url.QueryEscape`. -/
def queryEscape (s : String) : String :=
  String.mk (s.toList.flatMap queryEscapeChar)

/-- Lexicographic order on byte sequences. -/
def bytesLt : List Nat → List Nat → Bool
  | _, [] => false
  | [], _ :: _ => true
  | a :: as, b :: bs => if a < b then true else if b < a then false else bytesLt as bs

/-- Order of Go strings: byte by byte. -/
def keyLt (a b : String) : Bool :=
  bytesLt (a.toList.flatMap utf8Bytes) (b.toList.flatMap utf8Bytes)

/-- Insertion of a pair into a list sorted by key. -/
def insertByKey (kv : String × String) : List (String × String) → List (String × String)
  | [] => [kv]
  | x :: xs => if keyLt kv.1 x.1 then kv :: x :: xs else x :: insertByKey kv xs

/-- Method `url.Values.Encode` for single-valued keys: the pairs sorted by key, key and
value query-escaped, joined by `&`. -/
def valuesEncode (l : List (String × String)) : String :=
  String.intercalate "&"
    ((l.foldr insertByKey []).map fun kv => queryEscape kv.1 ++ "=" ++ queryEscape kv.2)

/-- Function `fmt.Sprintf` for string operands, on the rest of the format: `%s` takes
the next operand (`%!s(MISSING)` when there is none), `%%` is a percent sign, a
format that ends in `%` gives `%!(NOVERB)`; operands left over are reported as
`%!(EXTRA ...)`. Other verbs are not interpreted. -/
def sprintfFrom : List Char → List String → List Char
  | [], [] => []
  | [], a :: as =>
    ("%!(EXTRA " ++ String.intercalate ", " ((a :: as).map fun x => "string=" ++ x)
      ++ ")").toList
  | c :: cs, args =>
    if c = '%' then
      match cs with
      | [] => "%!(NOVERB)".toList ++ sprintfFrom [] args
      | d :: ds =>
        if d = 's' then
          match args with
          | [] => "%!s(MISSING)".toList ++ sprintfFrom ds []
          | a :: as => a.toList ++ sprintfFrom ds as
        else if d = '%' then '%' :: sprintfFrom ds args
        else c :: d :: sprintfFrom ds args
    else c :: sprintfFrom cs args

/-- One behaviour of the libraries. `bufio.Scanner`, `url.Values.Encode` and
`fmt.Sprintf` (for `%s`) are computed; lines are taken to be shorter than the token
limit of the scanner. `json.Marshal` writes the keys in sorted order; the values are
taken to hold no character that JSON escapes. The JSON decoders and `url.Parse` with
`Query().Get` are given by their values at the documents and URLs that occur:
`url.Parse` accepts the empty string (an empty URL) and rejects a string that starts
with a colon (missing protocol scheme). -/
def demoEnv : Env :=
  { hyundai := "hyundai-stamp-1\nhyundai-stamp-2"
    kia := "kia-stamp-1"
    scanLines := fun s => (scanLinesFrom s.toList [], none)
    jsonMarshal := fun l =>
      Except.ok ("\x7b" ++ String.intercalate ","
        ((l.foldr insertByKey []).map fun kv => "\"" ++ kv.1 ++ "\":\"" ++ kv.2 ++ "\"")
        ++ "\x7d")
    httpNewRequest := fun _ _ => none
    sprintf := fun f args => String.mk (sprintfFrom f.toList args)
    cookiejarNew := none
    unmarshalDevice := fun b =>
      if b = docDeviceS then Except.ok { Retcode := "S", Deviceid := "D1" }
      else if b = docDeviceF then Except.ok { Retcode := "F", Deviceid := "" }
      else if b = docDeviceNoCode then Except.ok { Retcode := "", Deviceid := "D1" }
      else Except.error (GoError.lib "json: cannot decode")
    unmarshalVehicles := fun b =>
      if b = docVehicles then
        Except.ok { Retcode := "S", Rescode := "", Msgid := "", Vehicles := demoRecords }
      else if b = docNoVehicles then
        Except.ok { Retcode := "S", Rescode := "", Msgid := "", Vehicles := [] }
      else if b = docFail then
        Except.ok { Retcode := "F", Rescode := "", Msgid := "", Vehicles := [] }
      else Except.error (GoError.lib "json: cannot decode")
    unmarshalStatus := fun b =>
      if b = docStatus then Except.ok demoStatusMsg
      else if b = docFail then
        Except.ok
          { Retcode := "F", Rescode := "", Doorlock := false, Batterycharge := false
            Batterystatus := 0, Batteryplugin := 0, Drvdistance := [], Targetsoclist := [] }
      else Except.error (GoError.lib "json: cannot decode")
    unmarshalRedirect := fun b =>
      if b = docRedirect then Except.ok { RedirectURL := redirectURL }
      else if b = docEmpty then Except.ok { RedirectURL := "" }
      else Except.error (GoError.lib "json: cannot decode")
    unmarshalTokens := fun b =>
      if b = docTokens then Except.ok { TokenType := "Bearer", AccessToken := "T1" }
      else if b = docEmpty then Except.ok { TokenType := "", AccessToken := "" }
      else Except.error (GoError.lib "json: cannot decode")
    urlParse := fun u =>
      if u = redirectURL then Except.ok { RawQuery := "code=C1&state=test" }
      else if u = "" then Except.ok { RawQuery := "" }
      else if u.front = ':' then Except.error (GoError.lib "parse: missing protocol scheme")
      else Except.ok { RawQuery := "" }
    queryGet := fun q k =>
      if q = "code=C1&state=test" ∧ k = "code" then "C1"
      else if q = "code=C1&state=test" ∧ k = "state" then "test"
      else ""
    formEncode := valuesEncode }

/-- A response with the given status and body, read without error. -/
def respOf (status : Int) (body : String) : Response :=
  { StatusCode := status, Body := { data := body, readErr := none } }

/-- A world whose HTTP client answers the calls with the listed responses and fails
every later call; the random source is constantly 0. -/
def worldOf (answers : List Response) : World :=
  { transport := fun n =>
      match answers[n]? with
      | some r => Except.ok r
      | none => Except.error (GoError.lib "transport: no more answers")
    calls := 0
    rand := fun _ => 0
    randCalls := 0
    uuid := fun _ => Except.ok "c0ffee00-0000-11ee-8000-000000000001"
    uuidCalls := 0
    now := 1700000000
    trace := [] }

/-- The Hyundai client `NewClient` builds, holding the given bearer token. -/
def demoClient (token : String) : Client :=
  { http := some { Timeout := 45, Jar := false }
    endpoints := defaultEndpoints
    cfg := { Username := "user@example.org", Password := "secret", Pin := "0000",
             Brand := Brand.BrandHyundai, Region := "eu" }
    auth :=
      { URI := "https://prd.eu-ccapi.hyundai.com:8080"
        TokenAuth := "NmQ0NzdjMzgtM2NhNC00Y2YzLTk1NTctMmExOTI5YTk0NjU0OktVeTQ5WHhQekxwTHVvSzB4aEJDNzdXNlZYaG10UVI5aVFobUlGampvWTRJcHhzVg=="
        CCSPServiceID := "6d477c38-3ca4-4cf3-9557-2a1929a94654"
        CCSPApplicationID := "99cfff84-f4e2-4be8-a5ed-e5b755eb6581"
        CCSPDeviceID := ""
        AccessToken := token
        UserAgent := defaultUserAgent } }

/-- A vehicle of `demoClient token`, as `Vehicles` mints it. -/
def demoVehicle (token : String) : Vehicle :=
  NewVehicle "V1" "KMH1" "IONIQ" "EV" Brand.BrandHyundai (demoClient token).http
    (demoClient token).auth (demoClient token).endpoints

/-- The world of a handshake: registration answered with device ID "D1", cookie priming
and language answered 200, then the given login and token responses. -/
def handshakeWorld (login token : Response) : World :=
  worldOf [respOf 200 docDeviceS, respOf 200 "", respOf 200 "", login, token]

/-- A full handshake, then a registration answered with status 500, then the directory. -/
def reloginWorld : World :=
  worldOf [respOf 200 docDeviceS, respOf 200 "", respOf 200 "", respOf 200 docRedirect,
    respOf 200 docTokens, respOf 500 "", respOf 200 docVehicles]

/-- First `Authenticate` of a fresh client in `reloginWorld`. -/
def firstLogin : Client × (Result Unit × World) :=
  (demoClient "").Authenticate demoEnv reloginWorld

/-- Second `Authenticate` of the same client, in the world the first one left. -/
def secondLogin : Client × (Result Unit × World) :=
  firstLogin.1.Authenticate demoEnv firstLogin.2.2

/-! ## Basic lemmas -/

@[simp] theorem andThen_ok {α β : Type} (a : α) (w : World)
    (f : α → World → Result β × World) : andThen (Result.ok a, w) f = f a w := rfl

@[simp] theorem andThen_fail {α β : Type} (e : GoError) (w : World)
    (f : α → World → Result β × World) :
    andThen (Result.fail e, w) f = (Result.fail e, w) := rfl

@[simp] theorem andThen_panic {α β : Type} (w : World)
    (f : α → World → Result β × World) :
    andThen ((Result.panic : Result α), w) f = (Result.panic, w) := rfl

@[simp] theorem liftExcept_ok {α : Type} (a : α) (w : World) :
    liftExcept (Except.ok a) w = (Result.ok a, w) := rfl

@[simp] theorem liftExcept_error {α : Type} (e : GoError) (w : World) :
    liftExcept (Except.error e : Except GoError α) w = (Result.fail e, w) := rfl

theorem wrapInt_of_isInt (a : Int) (h : isInt a) : wrapInt a = a := by
  unfold isInt at h
  unfold wrapInt
  omega

theorem wrapInt_mul_hundred (a : Int) : wrapInt (wrapInt a * 100) = wrapInt (a * 100) := by
  unfold wrapInt
  omega

/-- Truncated division: the quotient times the divisor differs from the dividend by a
remainder smaller than the divisor that has the sign of the dividend. -/
theorem tdiv_truncates (a b : Int) (hb : 0 < b) :
    ∃ r : Int, a = Int.tdiv a b * b + r ∧ |r| < b ∧ 0 ≤ r * a := by
  have hneg : ∀ c : Int, Int.tmod (-c) b = -(Int.tmod c b) := by
    intro c
    rw [Int.tmod_def, Int.tmod_def, Int.neg_tdiv]
    ring
  refine ⟨Int.tmod a b, ?_, ?_, ?_⟩
  · have := Int.tdiv_add_tmod a b
    linarith
  · rcases le_total 0 a with ha | ha
    · rw [abs_of_nonneg (Int.tmod_nonneg b ha)]
      exact Int.tmod_lt_of_pos a hb
    · obtain ⟨c, rfl⟩ : ∃ c, a = -c := ⟨-a, by simp⟩
      have hc : 0 ≤ c := by omega
      rw [hneg, abs_neg, abs_of_nonneg (Int.tmod_nonneg b hc)]
      exact Int.tmod_lt_of_pos c hb
  · rcases le_total 0 a with ha | ha
    · exact mul_nonneg (Int.tmod_nonneg b ha) ha
    · obtain ⟨c, rfl⟩ : ∃ c, a = -c := ⟨-a, by simp⟩
      have hc : 0 ≤ c := by omega
      rw [hneg]
      have := mul_nonneg (Int.tmod_nonneg b hc) hc
      linarith

/-! ## Lemmas on the stamp draw, the two queries and the target scan -/

theorem GetStampFromList_ok (env : Env) (b : Brand) (w : World) (s : String)
    (h : (GetStampFromList env b w).1 = Result.ok s) :
    GetStampFromList env b w =
      (Result.ok s,
       { w with randCalls := w.randCalls + 1, trace := w.trace ++ [Event.stamp b] }) := by
  unfold GetStampFromList pickStamp randIntn unpack at *
  cases b with
  | BrandHyundai =>
    rcases hsc : env.scanLines env.hyundai with ⟨p, _ | err⟩
    · simp only [hsc] at h ⊢
      by_cases hlen : p.length = 0
      · simp [hlen] at h
      · simp only [hlen, if_false, andThen_ok] at h ⊢
        cases hp : p[w.rand w.randCalls % p.length]? with
        | none => simp [hp] at h
        | some x => simp [hp] at h ⊢; exact h
    · simp [hsc] at h
  | BrandKia =>
    rcases hsc : env.scanLines env.kia with ⟨p, _ | err⟩
    · simp only [hsc] at h ⊢
      by_cases hlen : p.length = 0
      · simp [hlen] at h
      · simp only [hlen, if_false, andThen_ok] at h ⊢
        cases hp : p[w.rand w.randCalls % p.length]? with
        | none => simp [hp] at h
        | some x => simp [hp] at h ⊢; exact h
    · simp [hsc] at h
  | other t => simp at h

theorem GetStampFromList_indep (env : Env) (b : Brand) (w1 w2 : World)
    (hr : w1.rand = w2.rand) (hc : w1.randCalls = w2.randCalls) :
    (GetStampFromList env b w1).1 = (GetStampFromList env b w2).1 := by
  unfold GetStampFromList pickStamp randIntn unpack
  cases b with
  | BrandHyundai =>
    rcases hsc : env.scanLines env.hyundai with ⟨p, _ | err⟩
    · simp only [hr, hc]
      by_cases hlen : p.length = 0
      · simp [hlen]
      · simp only [hlen, if_false, andThen_ok]
        cases hp : p[w2.rand w2.randCalls % p.length]? <;> simp
    · simp
  | BrandKia =>
    rcases hsc : env.scanLines env.kia with ⟨p, _ | err⟩
    · simp only [hr, hc]
      by_cases hlen : p.length = 0
      · simp [hlen]
      · simp only [hlen, if_false, andThen_ok]
        cases hp : p[w2.rand w2.randCalls % p.length]? <;> simp
    · simp
  | other t => simp


/-- What `Status` returns once the transport has answered: the outcome as a function of
the response alone. -/
theorem Status_of_response (env : Env) (v : Vehicle) (w : World) (stamp : String)
    (h : HttpClient) (resp : Response)
    (hauth : v.auth.AccessToken ≠ "")
    (hstamp : (GetStampFromList env v.brand w).1 = Result.ok stamp)
    (hreq : env.httpNewRequest "GET"
      (env.sprintf (v.auth.URI ++ v.endpoints.Status) [v.id]) = none)
    (hhttp : v.http = some h)
    (hresp : w.transport w.calls = Except.ok resp) :
    (Vehicle.Status env v w).1 =
      if resp.StatusCode = 401 ∨ resp.StatusCode = 403 then
        Result.fail GoError.ErrNotAuthenticated
      else
        match env.unmarshalStatus resp.Body.data with
        | Except.error e => Result.fail e
        | Except.ok msg =>
          if msg.Retcode ≠ apiCodeOk then Result.fail GoError.ErrNotAuthenticated
          else Result.ok (buildStatus msg w.now) := by
  unfold Vehicle.Status
  simp only [hauth, if_false, GetStampFromList_ok env v.brand w stamp hstamp, andThen_ok,
    newHttpRequest, hreq, httpDo, hhttp, hresp, liftExcept_ok]
  by_cases hsc : resp.StatusCode = 401 ∨ resp.StatusCode = 403
  · simp only [hsc, if_true]
  · simp only [hsc, if_false]
    cases hdec : env.unmarshalStatus resp.Body.data with
    | error e => simp
    | ok msg =>
      simp only [liftExcept_ok, andThen_ok]
      by_cases hret : msg.Retcode = apiCodeOk <;> simp [hret]

theorem Vehicles_of_response (env : Env) (c : Client) (w : World) (stamp : String)
    (h : HttpClient) (resp : Response)
    (hauth : c.auth.AccessToken ≠ "")
    (hstamp : (GetStampFromList env c.cfg.Brand w).1 = Result.ok stamp)
    (hreq : env.httpNewRequest "GET" (c.auth.URI ++ c.endpoints.Vehicles) = none)
    (hhttp : c.http = some h)
    (hresp : w.transport w.calls = Except.ok resp) :
    (Client.Vehicles env c w).1 =
      match env.unmarshalVehicles resp.Body.data with
      | Except.error e => Result.fail e
      | Except.ok msg =>
        if msg.Retcode ≠ apiCodeOk then Result.fail GoError.ErrNotAuthenticated
        else if msg.Vehicles.length = 0 then Result.fail GoError.ErrNoVehicleFound
        else Result.ok (msg.Vehicles.map fun r =>
          NewVehicle r.ID r.Vin r.Name r.Typ c.cfg.Brand c.http c.auth c.endpoints) := by
  unfold Client.Vehicles
  simp only [hauth, if_false, GetStampFromList_ok env c.cfg.Brand w stamp hstamp, andThen_ok,
    newHttpRequest, hreq, httpDo, hhttp, hresp, liftExcept_ok]
  cases hdec : env.unmarshalVehicles resp.Body.data with
  | error e => simp
  | ok msg =>
    simp only [liftExcept_ok, andThen_ok]
    by_cases hret : msg.Retcode = apiCodeOk
    · by_cases hlen : msg.Vehicles.length = 0 <;> simp [hret, hlen]
    · simp [hret]

theorem scanTargets_append (l : List TargetSoc) (t : TargetSoc) :
    scanTargets (l ++ [t]) =
      if t.Plugtype = PlugTypeAC then (t.Targetsoclevel, (scanTargets l).2)
      else if t.Plugtype = PlugTypeDC then ((scanTargets l).1, t.Targetsoclevel)
      else scanTargets l := by
  simp [scanTargets, List.foldl_append]

theorem lastTarget_append (p : PlugType) (l : List TargetSoc) (t : TargetSoc) :
    lastTarget p (l ++ [t]) = if t.Plugtype = p then t.Targetsoclevel else lastTarget p l := by
  unfold lastTarget
  by_cases h : t.Plugtype = p <;> simp [List.find?_cons, h]

theorem plugTypes_differ : PlugTypeAC ≠ PlugTypeDC := by decide

theorem scanTargets_eq_lastTarget (l : List TargetSoc) :
    scanTargets l = (lastTarget PlugTypeAC l, lastTarget PlugTypeDC l) := by
  have h1 : ¬ PlugTypeAC = PlugTypeDC := plugTypes_differ
  have h2 : ¬ PlugTypeDC = PlugTypeAC := fun h => plugTypes_differ h.symm
  induction l using List.reverseRecOn with
  | nil => rfl
  | append_singleton l t ih =>
    rw [scanTargets_append, lastTarget_append, lastTarget_append, ih]
    by_cases hac : t.Plugtype = PlugTypeAC
    · simp [hac, h1]
    · by_cases hdc : t.Plugtype = PlugTypeDC
      · simp [hdc, h2]
      · simp [hac, hdc]

theorem scanTargets_filter (l : List TargetSoc) :
    scanTargets
        (l.filter fun t => decide (t.Plugtype = PlugTypeAC) || decide (t.Plugtype = PlugTypeDC))
      = scanTargets l := by
  induction l using List.reverseRecOn with
  | nil => rfl
  | append_singleton l t ih =>
    rw [List.filter_append, scanTargets_append]
    by_cases hac : t.Plugtype = PlugTypeAC
    · simp [List.filter_cons, hac, scanTargets_append, ih]
    · by_cases hdc : t.Plugtype = PlugTypeDC
      · simp [List.filter_cons, hac, hdc, scanTargets_append, ih]
      · simp [List.filter_cons, hac, hdc, ih]

/-! ## Lemmas on the handshake -/

/-- The outcome of `requestDeviceID` as a function of the registration response. -/
theorem requestDeviceID_of_response (env : Env) (c : Client) (w : World) (u stamp body : String)
    (h : HttpClient) (r : Response)
    (huuid : w.uuid w.uuidCalls = Except.ok u)
    (hstamp : (GetStampFromList env c.cfg.Brand w).1 = Result.ok stamp)
    (hbody : env.jsonMarshal [("pushRegId", "1"), ("pushType", "GCM"), ("uuid", u)]
      = Except.ok body)
    (hreq : env.httpNewRequest "POST" (c.auth.URI ++ c.endpoints.DeviceID) = none)
    (hhttp : c.http = some h)
    (hresp : w.transport w.calls = Except.ok r) :
    ∃ W : World,
      c.requestDeviceID env w =
        ((if r.StatusCode ≠ 200 then Result.fail GoError.ErrNotAuthenticated
          else
            match r.Body.readErr with
            | some err => Result.fail err
            | none =>
              match env.unmarshalDevice r.Body.data with
              | Except.error e => Result.fail e
              | Except.ok resp =>
                if resp.Retcode = apiCodeFail then Result.fail GoError.ErrNotAuthenticated
                else Result.ok resp.Deviceid), W) ∧
      W.transport = w.transport ∧ W.calls = w.calls + 1 := by
  have hstamp2 : (GetStampFromList env c.cfg.Brand { w with uuidCalls := w.uuidCalls + 1 }).1
      = Result.ok stamp := by
    exact (GetStampFromList_indep env c.cfg.Brand
      { w with uuidCalls := w.uuidCalls + 1 } w rfl rfl).trans hstamp
  unfold Client.requestDeviceID newUUID
  simp only [huuid, liftExcept_ok, andThen_ok,
    GetStampFromList_ok env c.cfg.Brand _ stamp hstamp2, hbody, newHttpRequest, hreq, httpDo,
    hhttp, hresp]
  by_cases hsc : r.StatusCode = 200
  · simp only [hsc, ne_eq, not_true_eq_false, if_false]
    cases hre : r.Body.readErr with
    | some err => exact ⟨_, rfl, rfl, rfl⟩
    | none =>
      cases hdec : env.unmarshalDevice r.Body.data with
      | error e => exact ⟨_, rfl, rfl, rfl⟩
      | ok resp =>
        simp only [liftExcept_ok, andThen_ok]
        by_cases hret : resp.Retcode = apiCodeFail
        · simp only [hret, if_true]; exact ⟨_, rfl, rfl, rfl⟩
        · simp only [hret, if_false]; exact ⟨_, rfl, rfl, rfl⟩
  · simp only [ne_eq, hsc, not_false_eq_true, if_true]
    exact ⟨_, rfl, rfl, rfl⟩

theorem setCookiesAndVerify_ok (env : Env) (c : Client) (w : World) (h : HttpClient)
    (r : Response)
    (hjar : env.cookiejarNew = none)
    (hreq : env.httpNewRequest "GET" (authorizeURI c) = none)
    (hhttp : c.http = some h)
    (hresp : w.transport w.calls = Except.ok r) :
    ∃ W : World,
      c.setCookiesAndVerify env w
        = ({ c with http := some { h with Jar := true } }, (Result.ok (), W)) ∧
      W.transport = w.transport ∧ W.calls = w.calls + 1 := by
  unfold Client.setCookiesAndVerify httpGet httpDo
  simp only [hjar, hhttp, hreq, hresp, liftExcept_ok, andThen_ok]
  exact ⟨_, rfl, rfl, rfl⟩

theorem setLanguage_ok (env : Env) (c : Client) (w : World) (lang body : String)
    (h : HttpClient) (r : Response)
    (hbody : env.jsonMarshal [("lang", lang)] = Except.ok body)
    (hreq : env.httpNewRequest "POST" (c.auth.URI ++ c.endpoints.Lang) = none)
    (hhttp : c.http = some h)
    (hresp : w.transport w.calls = Except.ok r) :
    ∃ W : World,
      c.setLanguage env lang w = (Result.ok (), W) ∧
      W.transport = w.transport ∧ W.calls = w.calls + 1 := by
  unfold Client.setLanguage newHttpRequest httpDo
  simp only [hbody, hhttp, hreq, hresp, liftExcept_ok, andThen_ok]
  exact ⟨_, rfl, rfl, rfl⟩

/-- The outcome of `login` as a function of the login response. -/
theorem login_of_response (env : Env) (c : Client) (w : World) (body : String)
    (h : HttpClient) (r : Response)
    (hbody : env.jsonMarshal [("email", c.cfg.Username), ("password", c.cfg.Password)]
      = Except.ok body)
    (hreq : env.httpNewRequest "POST" (c.auth.URI ++ c.endpoints.Login) = none)
    (hhttp : c.http = some h)
    (hresp : w.transport w.calls = Except.ok r) :
    ∃ W : World,
      c.login env w =
        ((if r.StatusCode = 400 then Result.fail GoError.ErrAuthenticationFailed
          else
            match env.unmarshalRedirect r.Body.data with
            | Except.error e => Result.fail e
            | Except.ok redirect =>
              match env.urlParse redirect.RedirectURL with
              | Except.error _ => Result.panic
              | Except.ok parsed => Result.ok (env.queryGet parsed.RawQuery "code")), W) ∧
      W.transport = w.transport ∧ W.calls = w.calls + 1 := by
  unfold Client.login newHttpRequest httpDo
  simp only [hbody, hhttp, hreq, hresp, liftExcept_ok, andThen_ok]
  by_cases hsc : r.StatusCode = 400
  · simp only [hsc, if_true]; exact ⟨_, rfl, rfl, rfl⟩
  · simp only [hsc, if_false]
    cases hdec : env.unmarshalRedirect r.Body.data with
    | error e => exact ⟨_, rfl, rfl, rfl⟩
    | ok redirect =>
      simp only [liftExcept_ok, andThen_ok]
      cases hu : env.urlParse redirect.RedirectURL with
      | error e => exact ⟨_, rfl, rfl, rfl⟩
      | ok parsed => exact ⟨_, rfl, rfl, rfl⟩

/-- The outcome of `requestAccessToken` as a function of the token response; the last
thing done is sending `tokenRequest`. -/
theorem requestAccessToken_of_response (env : Env) (c : Client) (w : World) (code : String)
    (h : HttpClient) (r : Response)
    (hreq : env.httpNewRequest "POST" (c.auth.URI ++ c.endpoints.AccessToken) = none)
    (hhttp : c.http = some h)
    (hresp : w.transport w.calls = Except.ok r) :
    ∃ W : World,
      c.requestAccessToken env code w =
        ((match env.unmarshalTokens r.Body.data with
          | Except.error e => Result.fail e
          | Except.ok tokens => Result.ok (tokens.TokenType ++ " " ++ tokens.AccessToken)), W) ∧
      W.trace.getLast? = some (Event.sent (tokenRequest env c code)) := by
  unfold Client.requestAccessToken newHttpRequest httpDo
  simp only [hhttp, hreq, hresp, liftExcept_ok, andThen_ok]
  cases hdec : env.unmarshalTokens r.Body.data with
  | error e => exact ⟨_, rfl, by simp [tokenRequest]⟩
  | ok tokens => exact ⟨_, rfl, by simp [tokenRequest]⟩


/-- `Authenticate` on a handshake whose registration and login responses are accepted:
it stores the device ID, its last action is the token request carrying the code taken
from the redirect URL, and it succeeds with the composed token exactly when the token
response decodes. -/
theorem Authenticate_of_handshake (env : Env) (c : Client) (w : World)
    (r1 r2 r3 r4 r5 : Response) (dev : DeviceResp) (red : RedirectResp) (u : URL)
    (H : Handshake env c w r1 r2 r3 r4 r5)
    (h1 : r1.StatusCode = 200) (h1r : r1.Body.readErr = none)
    (hdev : env.unmarshalDevice r1.Body.data = Except.ok dev)
    (hcode : dev.Retcode ≠ apiCodeFail)
    (h4 : r4.StatusCode ≠ 400)
    (hred : env.unmarshalRedirect r4.Body.data = Except.ok red)
    (hurl : env.urlParse red.RedirectURL = Except.ok u) :
    (c.Authenticate env w).2.2.trace.getLast?
      = some (Event.sent (tokenRequest env c (env.queryGet u.RawQuery "code"))) ∧
    (c.Authenticate env w).1.auth.CCSPDeviceID = dev.Deviceid ∧
    (c.Authenticate env w).2.1 =
      (match env.unmarshalTokens r5.Body.data with
        | Except.error e => Result.fail e
        | Except.ok _ => Result.ok ()) ∧
    (∀ tok : TokenResp, env.unmarshalTokens r5.Body.data = Except.ok tok →
      (c.Authenticate env w).1.auth.AccessToken = tok.TokenType ++ " " ++ tok.AccessToken) := by
  obtain ⟨h, hhttp⟩ := H.http
  obtain ⟨stamp, hstamp⟩ := H.stamp
  obtain ⟨uu, b1, huuid, hb1⟩ := H.uuid
  obtain ⟨b3, hb3⟩ := H.marshalLang
  obtain ⟨b4, hb4⟩ := H.marshalLogin
  obtain ⟨w1, e1, t1, n1⟩ := requestDeviceID_of_response env
    { c with http := some { h with Jar := false } } w uu stamp b1 { h with Jar := false } r1
    huuid hstamp hb1 H.requestDevice rfl H.answer1
  simp only [h1, ne_eq, not_true_eq_false, if_false, h1r, hdev, hcode] at e1
  obtain ⟨w2, e2, t2, n2⟩ := setCookiesAndVerify_ok env
    { c with http := some { h with Jar := false },
             auth := { c.auth with CCSPDeviceID := dev.Deviceid } }
    w1 { h with Jar := false } r2 H.jar H.requestCookie rfl
    (by rw [t1, n1]; exact H.answer2)
  obtain ⟨w3, e3, t3, n3⟩ := setLanguage_ok env
    { c with http := some { h with Jar := true },
             auth := { c.auth with CCSPDeviceID := dev.Deviceid } }
    w2 "en" b3 { h with Jar := true } r3 hb3 H.requestLang rfl
    (by rw [t2, n2, t1, n1]; exact H.answer3)
  obtain ⟨w4, e4, t4, n4⟩ := login_of_response env
    { c with http := some { h with Jar := true },
             auth := { c.auth with CCSPDeviceID := dev.Deviceid } }
    w3 b4 { h with Jar := true } r4 hb4 H.requestLogin rfl
    (by rw [t3, n3, t2, n2, t1, n1]; exact H.answer4)
  simp only [h4, if_false, hred, hurl] at e4
  obtain ⟨w5, e5, l5⟩ := requestAccessToken_of_response env
    { c with http := some { h with Jar := true },
             auth := { c.auth with CCSPDeviceID := dev.Deviceid } }
    w4 (env.queryGet u.RawQuery "code") { h with Jar := true } r5 H.requestToken rfl
    (by rw [t4, n4, t3, n3, t2, n2, t1, n1]; exact H.answer5)
  cases htok : env.unmarshalTokens r5.Body.data with
  | error e =>
    simp only [htok] at e5
    have hA : c.Authenticate env w =
        ({ c with http := some { h with Jar := true },
                  auth := { c.auth with CCSPDeviceID := dev.Deviceid } },
         (Result.fail e, w5)) := by
      unfold Client.Authenticate Client.resetCookies
      simp only [hhttp, e1, e2, e3, e4, e5]
    rw [hA]
    exact ⟨l5, rfl, rfl, fun tok ht => by cases ht⟩
  | ok tok =>
    simp only [htok] at e5
    have hA : c.Authenticate env w =
        ({ c with http := some { h with Jar := true },
                  auth := { c.auth with CCSPDeviceID := dev.Deviceid,
                                        AccessToken := tok.TokenType ++ " " ++ tok.AccessToken } },
         (Result.ok (), w5)) := by
      unfold Client.Authenticate Client.resetCookies
      simp only [hhttp, e1, e2, e3, e4, e5]
    rw [hA]
    refine ⟨l5, rfl, rfl, fun tok2 ht => ?_⟩
    cases ht
    rfl

theorem resetCookies_auth (c c0 : Client) (h : c.resetCookies = some c0) : c0.auth = c.auth := by
  unfold Client.resetCookies at h
  cases hh : c.http with
  | none => simp [hh] at h
  | some x =>
    simp only [hh, Option.some.injEq] at h
    rw [← h]

theorem setCookiesAndVerify_auth (env : Env) (c : Client) (w : World) :
    (c.setCookiesAndVerify env w).1.auth = c.auth := by
  unfold Client.setCookiesAndVerify
  cases env.cookiejarNew with
  | some err => rfl
  | none =>
    cases c.http with
    | none => rfl
    | some h => rfl

/-- A failing `Authenticate` leaves the bearer token as it was. -/
theorem Authenticate_fail_keeps_token (env : Env) (c : Client) (w : World) (e : GoError)
    (hfail : (c.Authenticate env w).2.1 = Result.fail e) :
    (c.Authenticate env w).1.auth.AccessToken = c.auth.AccessToken := by
  unfold Client.Authenticate at hfail ⊢
  cases h0 : c.resetCookies with
  | none => simp [h0] at hfail
  | some c0 =>
    have ha0 := resetCookies_auth c c0 h0
    simp only [h0] at hfail ⊢
    rcases h1 : c0.requestDeviceID env w with ⟨d | e1 | _, w1⟩
    · simp only [h1] at hfail ⊢
      have ha2 := setCookiesAndVerify_auth env
        { c0 with auth := { c0.auth with CCSPDeviceID := d } } w1
      rcases h2 : Client.setCookiesAndVerify env
        { c0 with auth := { c0.auth with CCSPDeviceID := d } } w1 with ⟨c2, _ | e2 | _, w2⟩
      · rw [h2] at ha2
        simp only [h2] at hfail ⊢
        rcases h3 : c2.setLanguage env "en" w2 with ⟨_ | _ | _, w3⟩
        · simp only [h3] at hfail ⊢
          rcases h4 : c2.login env w3 with ⟨code | e4 | _, w4⟩
          · simp only [h4] at hfail ⊢
            rcases h5 : c2.requestAccessToken env code w4 with ⟨_ | e5 | _, w5⟩
            · simp [h5] at hfail
            · simp only [h5]; rw [show c2.auth = _ from ha2, ← ha0]
            · simp [h5] at hfail
          · simp only [h4]; rw [show c2.auth = _ from ha2, ← ha0]
          · simp [h4] at hfail
        · simp only [h3]; rw [show c2.auth = _ from ha2, ← ha0]
        · simp [h3] at hfail
      · rw [h2] at ha2
        simp only [h2]; rw [show c2.auth = _ from ha2, ← ha0]
      · simp [h2] at hfail
    · simp only [h1]; rw [ha0]
    · simp [h1] at hfail

/-- The concrete handshake world satisfies `Handshake` for every login and token
response and every token the client holds. -/
theorem demo_handshake (token : String) (login tokenResp : Response) :
    Handshake demoEnv (demoClient token) (handshakeWorld login tokenResp)
      (respOf 200 docDeviceS) (respOf 200 "") (respOf 200 "") login tokenResp :=
  { http := ⟨_, rfl⟩
    stamp := ⟨"hyundai-stamp-1", rfl⟩
    uuid := ⟨_, _, rfl, rfl⟩
    jar := rfl
    marshalLang := ⟨_, rfl⟩
    marshalLogin := ⟨_, rfl⟩
    requestDevice := rfl
    requestCookie := rfl
    requestLang := rfl
    requestLogin := rfl
    requestToken := rfl
    answer1 := rfl
    answer2 := rfl
    answer3 := rfl
    answer4 := rfl
    answer5 := rfl }

/-! ## C1: MaxRange -/

/-- C1: for a snapshot with `batterySoc >= 0`, `MaxRange` is 0 when `batterySoc = 0`;
otherwise it is `q * 100` in Go `int` arithmetic, where `q` is the quotient of
`rangeLeft` by `batterySoc` truncated toward zero (`rangeLeft = q * batterySoc + r`
with `|r| < batterySoc` and `r` of the sign of `rangeLeft`), so the quotient is
truncated before the multiplication; the product is exact whenever it fits the Go
`int`. For `batterySoc = 50` and `rangeLeft = 150` the value is 300. -/
theorem C1_MaxRange (v : VehicleStatus) (hsoc : 0 ≤ v.batterySoc) :
    (v.batterySoc = 0 → v.MaxRange = 0) ∧
    (v.batterySoc ≠ 0 →
      ∃ q r : Int, v.rangeLeft = q * v.batterySoc + r ∧ |r| < v.batterySoc ∧
        0 ≤ r * v.rangeLeft ∧ v.MaxRange = wrapInt (q * 100) ∧
        (isInt (q * 100) → v.MaxRange = q * 100)) ∧
    (v.batterySoc = 50 → v.rangeLeft = 150 → v.MaxRange = 300) := by
  refine ⟨?_, ?_, ?_⟩
  · intro h0
    simp [VehicleStatus.MaxRange, h0]
  · intro hne
    have hpos : 0 < v.batterySoc := lt_of_le_of_ne hsoc (Ne.symm hne)
    obtain ⟨r, h1, h2, h3⟩ := tdiv_truncates v.rangeLeft v.batterySoc hpos
    have hmax : v.MaxRange = wrapInt (Int.tdiv v.rangeLeft v.batterySoc * 100) := by
      simp [VehicleStatus.MaxRange, hne, wrapInt_mul_hundred]
    refine ⟨Int.tdiv v.rangeLeft v.batterySoc, r, h1, h2, h3, hmax, ?_⟩
    intro hfit
    rw [hmax, wrapInt_of_isInt _ hfit]
  · intro h50 h150
    simp only [VehicleStatus.MaxRange, h50, h150]
    decide

/-- C1 at the snapshot of the spec's example: `batterySoc = 50`, `rangeLeft = 150`. -/
theorem C1_MaxRange_witness :
    (0 : Int) ≤ 50 ∧
    (VehicleStatus.mk 0 true false 50 150 0 0 0).MaxRange = 300 :=
  ⟨by decide,
   (C1_MaxRange (VehicleStatus.mk 0 true false 50 150 0 0 0) (by decide)).2.2 rfl rfl⟩

/-! ## C2: the target state-of-charge scan -/

/-- C2: when the status response decodes with `retCode` "S", `Status` returns the
snapshot whose `targetSocAC` is the `targetSOClevel` of the last AC entry of the decoded
`targetSOClist` (0 if none) and whose `targetSocDC` is that of the last DC entry (0 if
none); removing the entries of every other plug type from the list does not change the
two targets. -/
theorem C2_target_soc_last_wins (env : Env) (v : Vehicle) (w : World) (stamp : String)
    (h : HttpClient) (resp : Response) (msg : vehicleStatusResponse)
    (hauth : v.auth.AccessToken ≠ "")
    (hstamp : (GetStampFromList env v.brand w).1 = Result.ok stamp)
    (hreq : env.httpNewRequest "GET"
      (env.sprintf (v.auth.URI ++ v.endpoints.Status) [v.id]) = none)
    (hhttp : v.http = some h)
    (hresp : w.transport w.calls = Except.ok resp)
    (hsc : ¬ (resp.StatusCode = 401 ∨ resp.StatusCode = 403))
    (hdec : env.unmarshalStatus resp.Body.data = Except.ok msg)
    (hret : msg.Retcode = apiCodeOk) :
    (Vehicle.Status env v w).1 = Result.ok (buildStatus msg w.now) ∧
    (buildStatus msg w.now).targetSocAC = lastTarget PlugTypeAC msg.Targetsoclist ∧
    (buildStatus msg w.now).targetSocDC = lastTarget PlugTypeDC msg.Targetsoclist ∧
    ((buildStatus msg w.now).targetSocAC, (buildStatus msg w.now).targetSocDC) =
      scanTargets (msg.Targetsoclist.filter fun t =>
        decide (t.Plugtype = PlugTypeAC) || decide (t.Plugtype = PlugTypeDC)) := by
  have hst := Status_of_response env v w stamp h resp hauth hstamp hreq hhttp hresp
  simp only [hsc, if_false, hdec, hret, ne_eq, not_true_eq_false] at hst
  refine ⟨hst, ?_, ?_, ?_⟩
  · simp [buildStatus, scanTargets_eq_lastTarget]
  · simp [buildStatus, scanTargets_eq_lastTarget]
  · rw [scanTargets_filter]
    simp [buildStatus]

/-- C2 on the list of the spec's example, `[(AC,70), (DC,80), (AC,90)]`: the AC target
is 90 and the DC target is 80. -/
theorem C2_target_soc_last_wins_witness :
    (Vehicle.Status demoEnv (demoVehicle "Bearer T1") (worldOf [respOf 200 docStatus])).1
      = Result.ok (buildStatus demoStatusMsg 1700000000) ∧
    (buildStatus demoStatusMsg 1700000000).targetSocAC = 90 ∧
    (buildStatus demoStatusMsg 1700000000).targetSocDC = 80 :=
  have key := C2_target_soc_last_wins demoEnv (demoVehicle "Bearer T1")
    (worldOf [respOf 200 docStatus]) "hyundai-stamp-1" { Timeout := 45, Jar := false }
    (respOf 200 docStatus) demoStatusMsg (by decide) rfl rfl rfl rfl (by simp [respOf])
    rfl rfl
  ⟨key.1, key.2.1, key.2.2.1⟩

/-! ## C3: no bearer token, no action -/

/-- C3: with an empty bearer token `Status` and `Vehicles` return `ErrNotAuthenticated`
and leave the world exactly as it was: no stamp drawn, no request built, no call made
on the HTTP client. -/
theorem C3_empty_token_not_authenticated (env : Env) (v : Vehicle) (c : Client) (w : World) :
    (v.auth.AccessToken = "" →
      Vehicle.Status env v w = (Result.fail GoError.ErrNotAuthenticated, w)) ∧
    (c.auth.AccessToken = "" →
      Client.Vehicles env c w = (Result.fail GoError.ErrNotAuthenticated, w)) := by
  constructor
  · intro h
    simp [Vehicle.Status, h]
  · intro h
    simp [Client.Vehicles, h]

/-- C3 on the freshly built Hyundai client and one of its vehicles. -/
theorem C3_empty_token_not_authenticated_witness :
    Vehicle.Status demoEnv (demoVehicle "") (worldOf [respOf 200 docStatus])
      = (Result.fail GoError.ErrNotAuthenticated, worldOf [respOf 200 docStatus]) ∧
    Client.Vehicles demoEnv (demoClient "") (worldOf [respOf 200 docStatus])
      = (Result.fail GoError.ErrNotAuthenticated, worldOf [respOf 200 docStatus]) :=
  ⟨(C3_empty_token_not_authenticated demoEnv (demoVehicle "") (demoClient "")
      (worldOf [respOf 200 docStatus])).1 rfl,
   (C3_empty_token_not_authenticated demoEnv (demoVehicle "") (demoClient "")
      (worldOf [respOf 200 docStatus])).2 rfl⟩

/-! ## C4: a failing Authenticate and the bearer token -/

/-- C4, as stated, fails: a client authenticates (token "Bearer T1"), authenticates
again, and this time the device registration is answered with status 500. The second
`Authenticate` returns `ErrNotAuthenticated`, the session still holds "Bearer T1", and
the `Vehicles` call that follows is sent and returns the two vehicles. -/
theorem C4_counterexample :
    firstLogin.2.1 = Result.ok () ∧
    firstLogin.1.auth.AccessToken = "Bearer T1" ∧
    secondLogin.2.1 = Result.fail GoError.ErrNotAuthenticated ∧
    secondLogin.1.auth.AccessToken = "Bearer T1" ∧
    secondLogin.1.auth.AccessToken ≠ "" ∧
    (Client.Vehicles demoEnv secondLogin.1 secondLogin.2.2).1
      = Result.ok (demoRecords.map (vehicleOfRecord secondLogin.1)) ∧
    (Client.Vehicles demoEnv secondLogin.1 secondLogin.2.2).1
      ≠ Result.fail GoError.ErrNotAuthenticated := by
  refine ⟨rfl, rfl, rfl, rfl, ?_, rfl, ?_⟩
  · show ("Bearer T1" : String) ≠ ""
    decide
  · show (Result.ok (demoRecords.map (vehicleOfRecord secondLogin.1)) : Result (List Vehicle))
      ≠ Result.fail GoError.ErrNotAuthenticated
    exact fun h => Result.noConfusion h

/-- C4, amended: if `Authenticate` returns an error, the bearer token is what it was
before the call; so a client that held no token before still holds none, and every
`Vehicles` call that follows fails with `ErrNotAuthenticated` without touching the
world. -/
theorem C4_failed_authenticate_keeps_token (env : Env) (c : Client) (w : World) (e : GoError)
    (hfail : (c.Authenticate env w).2.1 = Result.fail e) :
    (c.Authenticate env w).1.auth.AccessToken = c.auth.AccessToken ∧
    (c.auth.AccessToken = "" →
      (c.Authenticate env w).1.auth.AccessToken = "" ∧
      ∀ w2 : World, Client.Vehicles env (c.Authenticate env w).1 w2
        = (Result.fail GoError.ErrNotAuthenticated, w2)) := by
  have hkeep := Authenticate_fail_keeps_token env c w e hfail
  refine ⟨hkeep, fun hempty => ⟨hkeep.trans hempty, fun w2 => ?_⟩⟩
  unfold Client.Vehicles
  rw [if_pos (hkeep.trans hempty)]

/-- C4 amended, on a fresh client whose login is answered with status 400. -/
theorem C4_failed_authenticate_keeps_token_witness :
    ((demoClient "").Authenticate demoEnv
        (handshakeWorld (respOf 400 "") (respOf 200 docTokens))).2.1
      = Result.fail GoError.ErrAuthenticationFailed ∧
    ((demoClient "").Authenticate demoEnv
        (handshakeWorld (respOf 400 "") (respOf 200 docTokens))).1.auth.AccessToken = "" :=
  ⟨rfl,
   ((C4_failed_authenticate_keeps_token demoEnv (demoClient "")
      (handshakeWorld (respOf 400 "") (respOf 200 docTokens))
      GoError.ErrAuthenticationFailed rfl).2 rfl).1⟩

/-! ## C5: device registration -/

/-- C5, as stated, fails: the registration response decodes with `retCode` "F", which is
not "S", and `requestDeviceID` and `Authenticate` return `ErrNotAuthenticated`, not
`ErrAuthenticationFailed`. -/
theorem C5_counterexample :
    demoEnv.unmarshalDevice docDeviceF = Except.ok { Retcode := "F", Deviceid := "" } ∧
    ("F" : String) ≠ apiCodeOk ∧
    ((demoClient "").requestDeviceID demoEnv (worldOf [respOf 200 docDeviceF])).1
      = Result.fail GoError.ErrNotAuthenticated ∧
    ((demoClient "").Authenticate demoEnv (worldOf [respOf 200 docDeviceF])).2.1
      = Result.fail GoError.ErrNotAuthenticated ∧
    ((demoClient "").Authenticate demoEnv (worldOf [respOf 200 docDeviceF])).2.1
      ≠ Result.fail GoError.ErrAuthenticationFailed := by
  refine ⟨rfl, by decide, rfl, rfl, ?_⟩
  show (Result.fail GoError.ErrNotAuthenticated : Result Unit)
    ≠ Result.fail GoError.ErrAuthenticationFailed
  decide

/-- C5, amended: for every registration response with status 200 whose top-level
`retCode` is "F", `requestDeviceID` returns no device identifier but the error
`ErrNotAuthenticated`, and `Authenticate` fails with `ErrNotAuthenticated` and stores
no device ID. -/
theorem C5_registration_retcode_F (env : Env) (c : Client) (w : World) (u stamp body : String)
    (h : HttpClient) (r : Response) (dev : DeviceResp)
    (huuid : w.uuid w.uuidCalls = Except.ok u)
    (hstamp : (GetStampFromList env c.cfg.Brand w).1 = Result.ok stamp)
    (hbody : env.jsonMarshal [("pushRegId", "1"), ("pushType", "GCM"), ("uuid", u)]
      = Except.ok body)
    (hreq : env.httpNewRequest "POST" (c.auth.URI ++ c.endpoints.DeviceID) = none)
    (hhttp : c.http = some h)
    (hresp : w.transport w.calls = Except.ok r)
    (hstatus : r.StatusCode = 200) (hread : r.Body.readErr = none)
    (hdec : env.unmarshalDevice r.Body.data = Except.ok dev)
    (hret : dev.Retcode = apiCodeFail) :
    (c.requestDeviceID env w).1 = Result.fail GoError.ErrNotAuthenticated ∧
    (c.Authenticate env w).2.1 = Result.fail GoError.ErrNotAuthenticated ∧
    (c.Authenticate env w).1.auth.CCSPDeviceID = c.auth.CCSPDeviceID := by
  obtain ⟨W, e, _, _⟩ := requestDeviceID_of_response env c w u stamp body h r
    huuid hstamp hbody hreq hhttp hresp
  obtain ⟨W0, e0, _, _⟩ := requestDeviceID_of_response env
    { c with http := some { h with Jar := false } } w u stamp body { h with Jar := false } r
    huuid hstamp hbody hreq rfl hresp
  simp only [hstatus, ne_eq, not_true_eq_false, if_false, hread, hdec, hret, if_true] at e e0
  have hA : c.Authenticate env w =
      ({ c with http := some { h with Jar := false } },
       (Result.fail GoError.ErrNotAuthenticated, W0)) := by
    unfold Client.Authenticate Client.resetCookies
    simp only [hhttp, e0]
  rw [hA, e]
  exact ⟨rfl, rfl, rfl⟩

/-- C5 amended, on the fresh Hyundai client and a registration answered with "F". -/
theorem C5_registration_retcode_F_witness :
    ((demoClient "").requestDeviceID demoEnv (worldOf [respOf 200 docDeviceF])).1
      = Result.fail GoError.ErrNotAuthenticated ∧
    ((demoClient "").Authenticate demoEnv (worldOf [respOf 200 docDeviceF])).2.1
      = Result.fail GoError.ErrNotAuthenticated :=
  have key := C5_registration_retcode_F demoEnv (demoClient "")
    (worldOf [respOf 200 docDeviceF]) "c0ffee00-0000-11ee-8000-000000000001"
    "hyundai-stamp-1" _ { Timeout := 45, Jar := false } (respOf 200 docDeviceF)
    { Retcode := "F", Deviceid := "" } rfl rfl rfl rfl rfl rfl rfl rfl rfl rfl
  ⟨key.1, key.2.1⟩

/-! ## C6: the HTTP status of the login response -/

/-- C6 at a failing input: a login response with status 500 whose body carries a
redirect URL is accepted. `login` returns the code "C1" with a nil error, and
`Authenticate` goes on to the token exchange and succeeds with the token "Bearer T1";
with status 400 and the same body `login` returns `ErrAuthenticationFailed`. -/
theorem C6_login_status_500_accepted :
    ((demoClient "").login demoEnv (worldOf [respOf 500 docRedirect])).1 = Result.ok "C1" ∧
    ((demoClient "").Authenticate demoEnv
        (handshakeWorld (respOf 500 docRedirect) (respOf 200 docTokens))).2.1 = Result.ok () ∧
    ((demoClient "").Authenticate demoEnv
        (handshakeWorld (respOf 500 docRedirect) (respOf 200 docTokens))).1.auth.AccessToken
      = "Bearer T1" ∧
    ((demoClient "").login demoEnv (worldOf [respOf 400 docRedirect])).1
      = Result.fail GoError.ErrAuthenticationFailed :=
  ⟨rfl, rfl, rfl, rfl⟩

/-! ## C7: a login response without a redirect URL -/

/-- C7, as stated, fails: the login response has status 200 and the body is the empty
JSON object, so the decoded redirect URL is the empty string. `login` returns the empty
code with a nil error, and `Authenticate` sends the token request with the empty code
and succeeds. -/
theorem C7_counterexample :
    demoEnv.unmarshalRedirect docEmpty = Except.ok { RedirectURL := "" } ∧
    ((demoClient "").login demoEnv (worldOf [respOf 200 docEmpty])).1 = Result.ok "" ∧
    ((demoClient "").Authenticate demoEnv
        (handshakeWorld (respOf 200 docEmpty) (respOf 200 docTokens))).2.1 = Result.ok () ∧
    ((demoClient "").Authenticate demoEnv
        (handshakeWorld (respOf 200 docEmpty) (respOf 200 docTokens))).2.2.trace.getLast?
      = some (Event.sent (tokenRequest demoEnv (demoClient "") "")) ∧
    (tokenRequest demoEnv (demoClient "") "").body
      = some "code=&grant_type=authorization_code&redirect_uri=https%3A%2F%2Fprd.eu-ccapi.hyundai.com%3A8080%2Fapi%2Fv1%2Fuser%2Foauth2%2Fredirect" :=
  ⟨rfl, rfl, rfl, rfl, rfl⟩

/-- C7, amended: when the login response has a success status (2xx) and its body
decodes without a `redirectUrl` field (the decoded redirect URL is the empty string,
which `url.Parse` accepts as the empty URL, whose query has no `code`), `login` returns
the empty authorization code with a nil error; the earlier steps of the handshake
having succeeded, `Authenticate` then sends the token request with the empty code and
returns nil when the token response decodes, and the decode error otherwise. -/
theorem C7_missing_redirect_gives_empty_code (env : Env) (c : Client) (w : World)
    (r1 r2 r3 r4 r5 : Response) (dev : DeviceResp) (red : RedirectResp)
    (H : Handshake env c w r1 r2 r3 r4 r5)
    (h1 : r1.StatusCode = 200) (h1r : r1.Body.readErr = none)
    (hdev : env.unmarshalDevice r1.Body.data = Except.ok dev)
    (hcode : dev.Retcode = apiCodeOk)
    (hsuccess : 200 ≤ r4.StatusCode ∧ r4.StatusCode < 300)
    (hred : env.unmarshalRedirect r4.Body.data = Except.ok red)
    (hmissing : red.RedirectURL = "")
    (hparse : env.urlParse "" = Except.ok { RawQuery := "" })
    (hquery : env.queryGet "" "code" = "") :
    (∀ w4 : World, w4.transport w4.calls = Except.ok r4 →
      (c.login env w4).1 = Result.ok "") ∧
    (c.Authenticate env w).2.2.trace.getLast? = some (Event.sent (tokenRequest env c "")) ∧
    (c.Authenticate env w).2.1 =
      (match env.unmarshalTokens r5.Body.data with
        | Except.error e => Result.fail e
        | Except.ok _ => Result.ok ()) := by
  have hF : dev.Retcode ≠ apiCodeFail := by
    rw [hcode]; decide
  have h4 : r4.StatusCode ≠ 400 := by
    obtain ⟨_, hlt⟩ := hsuccess
    omega
  have hurl : env.urlParse red.RedirectURL = Except.ok { RawQuery := "" } := by
    rw [hmissing]; exact hparse
  have key := Authenticate_of_handshake env c w r1 r2 r3 r4 r5 dev red { RawQuery := "" } H
    h1 h1r hdev hF h4 hred hurl
  rw [hquery] at key
  refine ⟨fun w4 hw4 => ?_, key.1, key.2.2.1⟩
  obtain ⟨hc, hhttp⟩ := H.http
  obtain ⟨b4, hb4⟩ := H.marshalLogin
  obtain ⟨W, e, _, _⟩ := login_of_response env c w4 b4 hc r4 hb4 H.requestLogin hhttp hw4
  simp only [h4, if_false, hred, hurl, hquery] at e
  rw [e]

/-- C7 amended, on the handshake whose login response is the empty JSON object. -/
theorem C7_missing_redirect_gives_empty_code_witness :
    ((demoClient "").Authenticate demoEnv
        (handshakeWorld (respOf 200 docEmpty) (respOf 200 docTokens))).2.2.trace.getLast?
      = some (Event.sent (tokenRequest demoEnv (demoClient "") "")) ∧
    ((demoClient "").Authenticate demoEnv
        (handshakeWorld (respOf 200 docEmpty) (respOf 200 docTokens))).2.1 = Result.ok () :=
  have key := C7_missing_redirect_gives_empty_code demoEnv (demoClient "")
    (handshakeWorld (respOf 200 docEmpty) (respOf 200 docTokens))
    (respOf 200 docDeviceS) (respOf 200 "") (respOf 200 "") (respOf 200 docEmpty)
    (respOf 200 docTokens) { Retcode := "S", Deviceid := "D1" } { RedirectURL := "" }
    (demo_handshake "" (respOf 200 docEmpty) (respOf 200 docTokens))
    rfl rfl rfl rfl (by simp [respOf]) rfl rfl rfl rfl
  ⟨key.2.1, key.2.2⟩

/-! ## C8: an envelope that does not report success -/

/-- C8: whatever the HTTP status of the response, when its body decodes to an envelope
whose `retCode` is not "S", `Status` on an authenticated vehicle and `Vehicles` on an
authenticated client return `ErrNotAuthenticated` and no value. -/
theorem C8_retcode_not_S_not_authenticated (env : Env) (w : World) (resp : Response)
    (hresp : w.transport w.calls = Except.ok resp) :
    (∀ (v : Vehicle) (stamp : String) (h : HttpClient) (msg : vehicleStatusResponse),
      v.auth.AccessToken ≠ "" →
      (GetStampFromList env v.brand w).1 = Result.ok stamp →
      env.httpNewRequest "GET" (env.sprintf (v.auth.URI ++ v.endpoints.Status) [v.id]) = none →
      v.http = some h →
      env.unmarshalStatus resp.Body.data = Except.ok msg →
      msg.Retcode ≠ apiCodeOk →
      (Vehicle.Status env v w).1 = Result.fail GoError.ErrNotAuthenticated) ∧
    (∀ (c : Client) (stamp : String) (h : HttpClient) (msg : VehiclesResp),
      c.auth.AccessToken ≠ "" →
      (GetStampFromList env c.cfg.Brand w).1 = Result.ok stamp →
      env.httpNewRequest "GET" (c.auth.URI ++ c.endpoints.Vehicles) = none →
      c.http = some h →
      env.unmarshalVehicles resp.Body.data = Except.ok msg →
      msg.Retcode ≠ apiCodeOk →
      (Client.Vehicles env c w).1 = Result.fail GoError.ErrNotAuthenticated) := by
  constructor
  · intro v stamp h msg hauth hstamp hreq hhttp hdec hret
    rw [Status_of_response env v w stamp h resp hauth hstamp hreq hhttp hresp]
    by_cases hsc : resp.StatusCode = 401 ∨ resp.StatusCode = 403
    · rw [if_pos hsc]
    · rw [if_neg hsc]
      simp only [hdec]
      rw [if_pos hret]
  · intro c stamp h msg hauth hstamp hreq hhttp hdec hret
    rw [Vehicles_of_response env c w stamp h resp hauth hstamp hreq hhttp hresp]
    simp only [hdec]
    rw [if_pos hret]

/-- C8 on a response with status 200 and the envelope `retCode` "F". -/
theorem C8_retcode_not_S_not_authenticated_witness :
    (Vehicle.Status demoEnv (demoVehicle "Bearer T1") (worldOf [respOf 200 docFail])).1
      = Result.fail GoError.ErrNotAuthenticated ∧
    (Client.Vehicles demoEnv (demoClient "Bearer T1") (worldOf [respOf 200 docFail])).1
      = Result.fail GoError.ErrNotAuthenticated :=
  have key := C8_retcode_not_S_not_authenticated demoEnv (worldOf [respOf 200 docFail])
    (respOf 200 docFail) rfl
  ⟨key.1 (demoVehicle "Bearer T1") "hyundai-stamp-1" { Timeout := 45, Jar := false }
      { Retcode := "F", Rescode := "", Doorlock := false, Batterycharge := false,
        Batterystatus := 0, Batteryplugin := 0, Drvdistance := [], Targetsoclist := [] }
      (by decide) rfl rfl rfl rfl (by decide),
   key.2 (demoClient "Bearer T1") "hyundai-stamp-1" { Timeout := 45, Jar := false }
      { Retcode := "F", Rescode := "", Msgid := "", Vehicles := [] }
      (by decide) rfl rfl rfl rfl (by decide)⟩

/-! ## C9: the directory listing -/

/-- C9: when the response decodes with `retCode` "S", `Vehicles` on an authenticated
client returns `ErrNoVehicleFound` exactly when the decoded vehicles array is empty, it
never returns an empty list, and for a non-empty array it returns, without error, the
list with one vehicle per record in the order of the records, each carrying the
record's `vehicleId`, `vin`, `vehicleName` and `type` and the client's brand. -/
theorem C9_vehicles_listing (env : Env) (c : Client) (w : World) (stamp : String)
    (h : HttpClient) (resp : Response) (msg : VehiclesResp)
    (hauth : c.auth.AccessToken ≠ "")
    (hstamp : (GetStampFromList env c.cfg.Brand w).1 = Result.ok stamp)
    (hreq : env.httpNewRequest "GET" (c.auth.URI ++ c.endpoints.Vehicles) = none)
    (hhttp : c.http = some h)
    (hresp : w.transport w.calls = Except.ok resp)
    (hdec : env.unmarshalVehicles resp.Body.data = Except.ok msg)
    (hret : msg.Retcode = apiCodeOk) :
    ((Client.Vehicles env c w).1 = Result.fail GoError.ErrNoVehicleFound ↔ msg.Vehicles = []) ∧
    (Client.Vehicles env c w).1 ≠ Result.ok [] ∧
    (msg.Vehicles ≠ [] →
      (Client.Vehicles env c w).1 = Result.ok (msg.Vehicles.map (vehicleOfRecord c)) ∧
      (msg.Vehicles.map (vehicleOfRecord c)).length = msg.Vehicles.length ∧
      ∀ (i : Nat) (r : VehicleRecord), msg.Vehicles[i]? = some r →
        ∃ v : Vehicle, (msg.Vehicles.map (vehicleOfRecord c))[i]? = some v ∧
          v.id = r.ID ∧ v.vin = r.Vin ∧ v.name = r.Name ∧ v.vtype = r.Typ ∧
          v.brand = c.cfg.Brand) := by
  have hV := Vehicles_of_response env c w stamp h resp hauth hstamp hreq hhttp hresp
  simp only [hdec, hret, ne_eq, not_true_eq_false, if_false] at hV
  have hmap : (msg.Vehicles.map fun r =>
      NewVehicle r.ID r.Vin r.Name r.Typ c.cfg.Brand c.http c.auth c.endpoints)
      = msg.Vehicles.map (vehicleOfRecord c) := rfl
  rw [hmap] at hV
  by_cases hlen : msg.Vehicles = []
  · have h0 : msg.Vehicles.length = 0 := by rw [hlen]; rfl
    rw [if_pos h0] at hV
    rw [hV]
    refine ⟨⟨fun _ => hlen, fun _ => rfl⟩, ?_, fun hne => absurd hlen hne⟩
    intro hcontra
    cases hcontra
  · have h0 : ¬ msg.Vehicles.length = 0 := by
      intro hz
      exact hlen (List.length_eq_zero.mp hz)
    rw [if_neg h0] at hV
    rw [hV]
    refine ⟨⟨fun hcontra => Result.noConfusion hcontra, fun he => absurd he hlen⟩, ?_,
      fun _ => ?_⟩
    · intro hcontra
      simp only [Result.ok.injEq, List.map_eq_nil_iff] at hcontra
      exact hlen hcontra
    · refine ⟨rfl, List.length_map _ _, fun i r hi => ?_⟩
      refine ⟨vehicleOfRecord c r, ?_, rfl, rfl, rfl, rfl, rfl⟩
      rw [List.getElem?_map, hi]
      rfl

/-- C9 on the directory with the two records V1 and V2. -/
theorem C9_vehicles_listing_witness :
    (Client.Vehicles demoEnv (demoClient "Bearer T1") (worldOf [respOf 200 docVehicles])).1
      = Result.ok (demoRecords.map (vehicleOfRecord (demoClient "Bearer T1"))) :=
  ((C9_vehicles_listing demoEnv (demoClient "Bearer T1") (worldOf [respOf 200 docVehicles])
    "hyundai-stamp-1" { Timeout := 45, Jar := false } (respOf 200 docVehicles)
    { Retcode := "S", Rescode := "", Msgid := "", Vehicles := demoRecords }
    (by decide) rfl rfl rfl rfl rfl rfl).2.2
    (by simp [demoRecords])).1

/-! ## C10: the successful handshake -/

/-- C10: when every step of the handshake succeeds (registration answered 200 with
`retCode` "S", login answered with a status other than 400 and a parseable redirect
URL, token response decodes), `Authenticate` returns no error, the device ID of the
session is the `deviceId` of the registration response and the bearer token is
`token_type`, one space, `access_token` of the token response. -/
theorem C10_authenticate_success (env : Env) (c : Client) (w : World)
    (r1 r2 r3 r4 r5 : Response) (dev : DeviceResp) (red : RedirectResp) (u : URL)
    (tok : TokenResp)
    (H : Handshake env c w r1 r2 r3 r4 r5)
    (h1 : r1.StatusCode = 200) (h1r : r1.Body.readErr = none)
    (hdev : env.unmarshalDevice r1.Body.data = Except.ok dev)
    (hcode : dev.Retcode = apiCodeOk)
    (h4 : r4.StatusCode ≠ 400)
    (hred : env.unmarshalRedirect r4.Body.data = Except.ok red)
    (hurl : env.urlParse red.RedirectURL = Except.ok u)
    (htok : env.unmarshalTokens r5.Body.data = Except.ok tok) :
    (c.Authenticate env w).2.1 = Result.ok () ∧
    (c.Authenticate env w).1.auth.CCSPDeviceID = dev.Deviceid ∧
    (c.Authenticate env w).1.auth.AccessToken = tok.TokenType ++ " " ++ tok.AccessToken := by
  have hF : dev.Retcode ≠ apiCodeFail := by
    rw [hcode]; decide
  have key := Authenticate_of_handshake env c w r1 r2 r3 r4 r5 dev red u H
    h1 h1r hdev hF h4 hred hurl
  refine ⟨?_, key.2.1, key.2.2.2 tok htok⟩
  rw [key.2.2.1, htok]

/-- C10 on the spec's end-to-end example: registration returns "D1", the login redirect
carries the code "C1", the token response is ("Bearer", "T1"); the session ends with
device ID "D1" and bearer credential "Bearer T1". -/
theorem C10_authenticate_success_witness :
    ((demoClient "").Authenticate demoEnv
        (handshakeWorld (respOf 200 docRedirect) (respOf 200 docTokens))).2.1 = Result.ok () ∧
    ((demoClient "").Authenticate demoEnv
        (handshakeWorld (respOf 200 docRedirect) (respOf 200 docTokens))).1.auth.CCSPDeviceID
      = "D1" ∧
    ((demoClient "").Authenticate demoEnv
        (handshakeWorld (respOf 200 docRedirect) (respOf 200 docTokens))).1.auth.AccessToken
      = "Bearer T1" :=
  C10_authenticate_success demoEnv (demoClient "")
    (handshakeWorld (respOf 200 docRedirect) (respOf 200 docTokens))
    (respOf 200 docDeviceS) (respOf 200 "") (respOf 200 "") (respOf 200 docRedirect)
    (respOf 200 docTokens) { Retcode := "S", Deviceid := "D1" } { RedirectURL := redirectURL }
    { RawQuery := "code=C1&state=test" } { TokenType := "Bearer", AccessToken := "T1" }
    (demo_handshake "" (respOf 200 docRedirect) (respOf 200 docTokens))
    rfl rfl rfl rfl (by simp [respOf]) rfl rfl rfl

/-! ## C11: the fields of the snapshot -/

/-- C11: when the status response decodes with `retCode` "S", `Status` returns (it does
not panic, also for an empty `drvDistance`) the snapshot whose remaining range is the
`evModeRange` value of the first `drvDistance` entry, and 0 when `drvDistance` is empty,
and whose door-lock flag, charging flag, state of charge and plug state are
`resMsg.doorLock`, `evStatus.batteryCharge`, `evStatus.batteryStatus` and
`evStatus.batteryPlugin` unchanged; the entries of `drvDistance` after the first do not
affect the snapshot. -/
theorem C11_snapshot_fields (env : Env) (v : Vehicle) (w : World) (stamp : String)
    (h : HttpClient) (resp : Response) (msg : vehicleStatusResponse)
    (hauth : v.auth.AccessToken ≠ "")
    (hstamp : (GetStampFromList env v.brand w).1 = Result.ok stamp)
    (hreq : env.httpNewRequest "GET"
      (env.sprintf (v.auth.URI ++ v.endpoints.Status) [v.id]) = none)
    (hhttp : v.http = some h)
    (hresp : w.transport w.calls = Except.ok resp)
    (hsc : ¬ (resp.StatusCode = 401 ∨ resp.StatusCode = 403))
    (hdec : env.unmarshalStatus resp.Body.data = Except.ok msg)
    (hret : msg.Retcode = apiCodeOk) :
    (Vehicle.Status env v w).1 = Result.ok (buildStatus msg w.now) ∧
    (∀ d : DrvDistance, msg.Drvdistance[0]? = some d →
      (buildStatus msg w.now).rangeLeft = d.EvmoderangeValue) ∧
    (msg.Drvdistance = [] → (buildStatus msg w.now).rangeLeft = 0) ∧
    (buildStatus msg w.now).doorIsLocked = msg.Doorlock ∧
    (buildStatus msg w.now).isCharging = msg.Batterycharge ∧
    (buildStatus msg w.now).batterySoc = msg.Batterystatus ∧
    (buildStatus msg w.now).plugState = msg.Batteryplugin ∧
    (∀ (d : DrvDistance) (rest rest2 : List DrvDistance),
      buildStatus { msg with Drvdistance := d :: rest } w.now
        = buildStatus { msg with Drvdistance := d :: rest2 } w.now) := by
  have hst := Status_of_response env v w stamp h resp hauth hstamp hreq hhttp hresp
  simp only [hsc, if_false, hdec, hret, ne_eq, not_true_eq_false] at hst
  refine ⟨hst, ?_, ?_, rfl, rfl, rfl, rfl, fun d rest rest2 => rfl⟩
  · intro d hd
    cases hl : msg.Drvdistance with
    | nil => simp [hl] at hd
    | cons x xs =>
      simp only [hl, List.getElem?_cons_zero, Option.some.injEq] at hd
      simp [buildStatus, hl, hd]
  · intro hl
    simp [buildStatus, hl]

/-- C11 on the status document of the concrete environment: range 150, doors locked, not
charging, state of charge 50, plug state 0. -/
theorem C11_snapshot_fields_witness :
    (Vehicle.Status demoEnv (demoVehicle "Bearer T1") (worldOf [respOf 200 docStatus])).1
      = Result.ok (buildStatus demoStatusMsg 1700000000) ∧
    (buildStatus demoStatusMsg 1700000000).rangeLeft = 150 ∧
    (buildStatus demoStatusMsg 1700000000).doorIsLocked = true ∧
    (buildStatus demoStatusMsg 1700000000).isCharging = false ∧
    (buildStatus demoStatusMsg 1700000000).batterySoc = 50 ∧
    (buildStatus demoStatusMsg 1700000000).plugState = 0 :=
  have key := C11_snapshot_fields demoEnv (demoVehicle "Bearer T1")
    (worldOf [respOf 200 docStatus]) "hyundai-stamp-1" { Timeout := 45, Jar := false }
    (respOf 200 docStatus) demoStatusMsg (by decide) rfl rfl rfl rfl (by simp [respOf])
    rfl rfl
  ⟨key.1, key.2.1 _ rfl, key.2.2.2.1, key.2.2.2.2.1, key.2.2.2.2.2.1, key.2.2.2.2.2.2.1⟩

/-! ## C12: NewClient -/

/-- C12: without options, `NewClient` returns for brand Hyundai and for brand Kia, with
no error, the new client holding that brand's credentials; base URI, service ID,
application ID and token-auth secret are non-empty and each differs between the two
brands, device ID and bearer token are empty. For every other brand value it returns
`ErrUnknownBrand` and no client. -/
theorem C12_NewClient_brands (cfg : Config) :
    (cfg.Brand = Brand.BrandHyundai →
      NewClient cfg [] = Result.ok (freshClient cfg hyundaiAuth)) ∧
    (cfg.Brand = Brand.BrandKia →
      NewClient cfg [] = Result.ok (freshClient cfg kiaAuth)) ∧
    (cfg.Brand ≠ Brand.BrandHyundai → cfg.Brand ≠ Brand.BrandKia →
      NewClient cfg [] = Result.fail GoError.ErrUnknownBrand) ∧
    (hyundaiAuth.URI ≠ "" ∧ hyundaiAuth.CCSPServiceID ≠ "" ∧
      hyundaiAuth.CCSPApplicationID ≠ "" ∧ hyundaiAuth.TokenAuth ≠ "") ∧
    (kiaAuth.URI ≠ "" ∧ kiaAuth.CCSPServiceID ≠ "" ∧
      kiaAuth.CCSPApplicationID ≠ "" ∧ kiaAuth.TokenAuth ≠ "") ∧
    (hyundaiAuth.URI ≠ kiaAuth.URI ∧ hyundaiAuth.CCSPServiceID ≠ kiaAuth.CCSPServiceID ∧
      hyundaiAuth.CCSPApplicationID ≠ kiaAuth.CCSPApplicationID ∧
      hyundaiAuth.TokenAuth ≠ kiaAuth.TokenAuth) ∧
    (hyundaiAuth.CCSPDeviceID = "" ∧ hyundaiAuth.AccessToken = "" ∧
      kiaAuth.CCSPDeviceID = "" ∧ kiaAuth.AccessToken = "") := by
  refine ⟨?_, ?_, ?_, ?_, ?_, ?_, ⟨rfl, rfl, rfl, rfl⟩⟩
  · intro hb
    simp [NewClient, hb, freshClient, hyundaiAuth]
  · intro hb
    simp [NewClient, hb, freshClient, kiaAuth]
  · intro hH hK
    cases hb : cfg.Brand with
    | BrandHyundai => exact absurd hb hH
    | BrandKia => exact absurd hb hK
    | other tag => simp [NewClient, hb]
  · simp [hyundaiAuth]
  · simp [kiaAuth]
  · simp [hyundaiAuth, kiaAuth]

/-- C12 on three configurations: Hyundai, Kia and a brand that is neither. -/
theorem C12_NewClient_brands_witness :
    NewClient (demoClient "").cfg [] = Result.ok (demoClient "") ∧
    NewClient { (demoClient "").cfg with Brand := Brand.BrandKia } []
      = Result.ok (freshClient { (demoClient "").cfg with Brand := Brand.BrandKia } kiaAuth) ∧
    NewClient { (demoClient "").cfg with Brand := Brand.other "genesis" } []
      = Result.fail GoError.ErrUnknownBrand :=
  ⟨(C12_NewClient_brands (demoClient "").cfg).1 rfl,
   (C12_NewClient_brands { (demoClient "").cfg with Brand := Brand.BrandKia }).2.1 rfl,
   (C12_NewClient_brands { (demoClient "").cfg with Brand := Brand.other "genesis" }).2.2.1
     (by decide) (by decide)⟩

/-! ## C13: MaxRange as the full-charge range -/

/-- C13 at two failing inputs: at state of charge 100 with 150 left, `MaxRange` is 100,
not 150; at state of charge 50 with 10 left, `MaxRange` is 0, which is less than the
10 left. The quotient is truncated before it is multiplied by 100. -/
theorem C13_MaxRange_below_rangeLeft :
    (VehicleStatus.mk 0 true false 100 150 0 0 0).MaxRange = 100 ∧
    (VehicleStatus.mk 0 true false 100 150 0 0 0).MaxRange
      ≠ (VehicleStatus.mk 0 true false 100 150 0 0 0).rangeLeft ∧
    (VehicleStatus.mk 0 true false 50 10 0 0 0).MaxRange = 0 ∧
    ¬ ((VehicleStatus.mk 0 true false 50 10 0 0 0).rangeLeft
      ≤ (VehicleStatus.mk 0 true false 50 10 0 0 0).MaxRange) := by
  refine ⟨by decide, by decide, by decide, by decide⟩

end Goblue
